import Mathlib

/-!
Verification of the carbonconstruct compliance rules engine
(`compliance-automation/engine/rules_engine.py` and
`compliance-automation/schemas/canonical_schema.py`).

The Python code is shallowly embedded: `Decimal` quantities become `ℚ`
(Python `Decimal` arithmetic is exact for the magnitudes at issue here),
`date` values become `Int` day ordinals (only comparison and day
arithmetic are used), UUIDs become `Nat`, and Python exceptions become
an `Except PyError` result.  Conversions to binary floating point
(`float(...)`) are modelled by explicit round-to-nearest-even double
rounding on `ℚ`.  Python truthiness of optional / numeric / string
fields (`if x:`) is translated literally (`None`, `0` and `""` are
falsy).
-/

set_option maxRecDepth 4000
set_option linter.unusedVariables false

-- ===========================================================================
-- Error model for Python exceptions raised (or allegedly raised) by the engine
-- ===========================================================================

/-- Exceptions the embedded engine code can signal.  `configError` is the
`ConfigError` the specification names for rule-catalogue loading; it is a
member of the type so that theorems can state whether loading ever produces
it. -/
inductive PyError where
  | typeError
  | zeroDivisionError
  | keyError
  | configError
deriving DecidableEq, Repr

instance {ε α : Type} [DecidableEq ε] [DecidableEq α] : DecidableEq (Except ε α) :=
  fun x y =>
    match x, y with
    | Except.ok a, Except.ok b =>
      if h : a = b then Decidable.isTrue (by rw [h])
      else Decidable.isFalse (fun hc => h (Except.ok.inj hc))
    | Except.error e, Except.error f =>
      if h : e = f then Decidable.isTrue (by rw [h])
      else Decidable.isFalse (fun hc => h (Except.error.inj hc))
    | Except.ok _, Except.error _ => Decidable.isFalse (fun hc => Except.noConfusion hc)
    | Except.error _, Except.ok _ => Decidable.isFalse (fun hc => Except.noConfusion hc)

-- ===========================================================================
-- Enumerations from canonical_schema.py
-- ===========================================================================

/-- The `severity` values allowed by the `ComplianceFinding` pattern. -/
inductive Severity where
  | critical
  | high
  | medium
  | low
  | warning
  | info
deriving DecidableEq, Repr

/-- The `Unit` enumeration. -/
inductive MUnit where
  | m3
  | m2
  | m
  | kg
  | tonne
  | each
  | l
  | kwh
  | mj
deriving DecidableEq, Repr

/-- The `EPDType` enumeration. -/
inductive EPDType where
  | productSpecific
  | industryAverage
  | generic
deriving DecidableEq, Repr

/-- The `WasteType` enumeration. -/
inductive WasteType where
  | landfill
  | recycled
  | reused
  | incinerated
  | hazardous
deriving DecidableEq, Repr

/-- The `EvidenceType` enumeration (the members the engine inspects). -/
inductive EvidenceType where
  | epd
  | invoice
  | meterReading
  | transportLog
  | wasteReceipt
  | bimModel
  | ifcFile
  | certification
  | testReport
  | photo
  | other
deriving DecidableEq, Repr

/-- The `TransportMode` enumeration. -/
inductive TransportMode where
  | road
  | rail
  | sea
  | air
deriving DecidableEq, Repr

-- ===========================================================================
-- Entity records from canonical_schema.py
-- ===========================================================================

/-- The `EvidenceDocument`: type tag, URI, optional filename and content hash. -/
structure EvidenceDocument where
  type : EvidenceType
  uri : String
  filename : Option String := none
  hash : Option String := none
deriving DecidableEq, Repr

/-- The `GeographicLocation` (the fields the engine reads). -/
structure GeographicLocation where
  city : Option String := none
  state : Option String := none
  country : String := "Australia"
deriving DecidableEq, Repr

/-- The `LCAStages`: mandatory stages A1-A3, A4, A5 (non-null per schema
validator) and optional B/C/D stages. -/
structure LCAStages where
  a1_a3 : ℚ
  a4 : ℚ
  a5 : ℚ
  b1_b7 : Option ℚ := none
  c1_c4 : Option ℚ := none
  d : Option ℚ := none
deriving DecidableEq, Repr

/-- The `if x: total += x` on an optional Decimal: added only when truthy
(present and nonzero); adding zero is the identity, so falsy cases leave
the accumulator unchanged exactly as in the source. -/
def optTruthyAdd (acc : ℚ) (x : Option ℚ) : ℚ :=
  match x with
  | none => acc
  | some v => if v = 0 then acc else acc + v

/-- The `LCAStages.total_embodied_carbon`: A1-A5 plus truthy C1-C4 and D. -/
def LCAStages.total_embodied_carbon (s : LCAStages) : ℚ :=
  optTruthyAdd (optTruthyAdd (s.a1_a3 + s.a4 + s.a5) s.c1_c4) s.d

/-- The `EPDDocument` (fields read by the engine). -/
structure EPDDocument where
  id : Nat
  epd_number : String
  product_name : String
  manufacturer : String := ""
  declared_unit : MUnit := MUnit.kg
  gwp_total : ℚ := 0
  lca_stages : LCAStages
  valid_from : Int
  valid_until : Int
  is_verified : Bool := false
  epd_type : EPDType
  source : String := "EPD Australasia"
  evidence : List EvidenceDocument := []
deriving DecidableEq, Repr

/-- The `EPDDocument.is_valid_on`. -/
def EPDDocument.is_valid_on (epd : EPDDocument) (check_date : Int) : Bool :=
  decide (epd.valid_from ≤ check_date) && decide (check_date ≤ epd.valid_until)

/-- The `IFCElement` (fields read by the engine). -/
structure IFCElement where
  id : Nat
  ifc_guid : String := ""
  ifc_type : String := "IfcWall"
  name : Option String := none
  quantity : ℚ
  unit : MUnit
  material_name : String
  evidence : List EvidenceDocument := []
deriving DecidableEq, Repr

/-- The `BIMModel` (fields read by the engine). -/
structure BIMModel where
  id : Nat
  project_name : String := ""
  elements : List IFCElement := []
deriving DecidableEq, Repr

/-- The `InvoiceLineItem` (fields read by the engine).  `metadataHasEmissionsFactor`
models membership of the key `emissions_factor` in the free-form
`metadata` dict. -/
structure InvoiceLineItem where
  id : Nat
  line_number : Int
  product_name : String
  quantity : ℚ
  unit : MUnit
  epd_id : Option Nat := none
  metadataHasEmissionsFactor : Bool := false
deriving DecidableEq, Repr

/-- The `ERPInvoice` (fields read by the engine). -/
structure ERPInvoice where
  id : Nat
  invoice_number : String
  supplier_abn : Option String := none
  invoice_date : Int
  line_items : List InvoiceLineItem := []
  delivery_location : Option GeographicLocation := none
  evidence : List EvidenceDocument := []
deriving DecidableEq, Repr

/-- The `UtilityMeter` (fields read by the engine). -/
structure UtilityMeter where
  id : Nat
  meter_id : String
  start_date : Int
  end_date : Int
deriving DecidableEq, Repr

/-- The `TransportLeg` (fields read by the engine). -/
structure TransportLeg where
  id : Nat
  origin : GeographicLocation
  destination : GeographicLocation
  distance_km : ℚ
  transport_mode : TransportMode := TransportMode.road
  cargo_weight_kg : ℚ := 0
  load_factor : ℚ := 1
  emissions_factor : Option ℚ := none
deriving DecidableEq, Repr

/-- The `TransportLeg.calculate_emissions`: emissions when factor is truthy,
else zero. -/
def TransportLeg.calculate_emissions (leg : TransportLeg) : ℚ :=
  match leg.emissions_factor with
  | none => 0
  | some f =>
    if f = 0 then 0
    else (leg.cargo_weight_kg / 1000) * leg.distance_km * f

/-- The `TransportLog` (fields read by the engine). -/
structure TransportLog where
  id : Nat
  shipment_id : String := ""
  material_name : String := ""
  legs : List TransportLeg := []
  evidence : List EvidenceDocument := []
deriving DecidableEq, Repr

/-- The `TransportLog.total_emissions`. -/
def TransportLog.total_emissions (log : TransportLog) : ℚ :=
  (log.legs.map TransportLeg.calculate_emissions).sum

/-- The `WasteStream` (fields read by the engine). -/
structure WasteStream where
  id : Nat
  waste_type : WasteType
  material_description : String := ""
  quantity : ℚ
  unit : MUnit
  disposal_facility : String := ""
  total_emissions : Option ℚ := none
  recycled_content_pct : Option ℚ := none
  evidence : List EvidenceDocument := []
deriving DecidableEq, Repr

/-- The `ComplianceProject` (fields read by the engine). -/
structure ComplianceProject where
  id : Nat
  project_name : String
  project_type : String := "commercial"
  start_date : Int
  end_date : Option Int := none
  location : GeographicLocation := {}
  gross_floor_area_m2 : Option ℚ := none
  bim_models : List BIMModel := []
  epds : List EPDDocument := []
  invoices : List ERPInvoice := []
  meters : List UtilityMeter := []
  transport_logs : List TransportLog := []
  waste_streams : List WasteStream := []
  evidence_documents : List EvidenceDocument := []
deriving DecidableEq, Repr

/-- The `ComplianceProject.total_embodied_carbon`: EPD stage totals plus
transport emissions plus truthy waste emissions. -/
def ComplianceProject.total_embodied_carbon (p : ComplianceProject) : ℚ :=
  (p.epds.map (fun epd => epd.lca_stages.total_embodied_carbon)).sum
    + (p.transport_logs.map TransportLog.total_emissions).sum
    + (p.waste_streams.map (fun w => optTruthyAdd 0 w.total_emissions)).sum

/-- The `ComplianceProject.carbon_intensity_per_m2`: defined only when the
gross floor area is truthy (present and nonzero). -/
def ComplianceProject.carbon_intensity_per_m2 (p : ComplianceProject) : Option ℚ :=
  match p.gross_floor_area_m2 with
  | none => none
  | some g => if g = 0 then none else some (p.total_embodied_carbon / g)

-- ===========================================================================
-- Findings schema (rules_engine.py)
-- ===========================================================================

/-- The `Remediation` guidance attached to a finding. -/
structure Remediation where
  action : String
  responsible_party : String
  resources : List String := []
deriving DecidableEq, Repr

/-- The `ComplianceFinding` (generated `finding_id` and `checked_at` are
omitted: the specification fixes determinism only modulo generated
identifiers and timestamps).  `material` and `references` model the
`metadata` entries the double-counting check stores. -/
structure ComplianceFinding where
  rule_id : String
  rule_name : String
  severity : Severity
  passed : Bool
  description : String
  entity_id : Option Nat := none
  entity_type : Option String := none
  evidence_uris : List String := []
  remediation : Remediation
  material : Option String := none
  references : List String := []
deriving DecidableEq, Repr

/-- The `ComplianceReport` (generated `report_id`/`generated_at` omitted). -/
structure ComplianceReport where
  project_id : Nat
  project_name : String
  rules_version : String := "1.0.0"
  engine_version : String := "1.0.0"
  findings : List ComplianceFinding := []
  total_checks : Nat := 0
  passed_checks : Nat := 0
  failed_checks : Nat := 0
  critical_count : Nat := 0
  high_count : Nat := 0
  medium_count : Nat := 0
  low_count : Nat := 0
  compliant : Bool := false
deriving DecidableEq, Repr

/-- The `ComplianceReport.calculate_summary`: recomputes every summary field
from the finding list. -/
def ComplianceReport.calculate_summary (r : ComplianceReport) : ComplianceReport :=
  let total := r.findings.length
  let passed := (r.findings.filter (fun f => f.passed)).length
  let failed := total - passed
  let crit := (r.findings.filter (fun f => !f.passed && f.severity = Severity.critical)).length
  let high := (r.findings.filter (fun f => !f.passed && f.severity = Severity.high)).length
  let med := (r.findings.filter (fun f => !f.passed && f.severity = Severity.medium)).length
  let low := (r.findings.filter
      (fun f => !f.passed && (f.severity = Severity.low || f.severity = Severity.warning))).length
  { r with
    total_checks := total
    passed_checks := passed
    failed_checks := failed
    critical_count := crit
    high_count := high
    medium_count := med
    low_count := low
    compliant := crit = 0 && high = 0 }

-- ===========================================================================
-- Binary floating point model
--
-- `rules_engine.py` converts `Decimal` values to Python floats (IEEE 754
-- binary64) in the quantity-variance and data-quality computations.  We model
-- a float as the rational obtained by rounding to 53 significant bits with
-- round-to-nearest, ties-to-even (the normal range; overflow and subnormal
-- underflow are outside the magnitudes exercised here).
-- ===========================================================================

/-- Fuel-driven base-2 logarithm on `Nat` (`log2Fuel n n` is exact for every
`n`, since each step halves the argument). -/
def log2Fuel : Nat → Nat → Nat
  | 0, _ => 0
  | f + 1, n => if 2 ≤ n then log2Fuel f (n / 2) + 1 else 0

/-- The equation `natLog2 n = ⌊log₂ n⌋` holds for `n ≥ 1`. -/
def natLog2 (n : Nat) : Nat := log2Fuel n n

/-- The rational `2 ^ e`, for integer `e`. -/
def pow2Q (e : ℤ) : ℚ :=
  if 0 ≤ e then ((2 ^ e.toNat : ℕ) : ℚ) else 1 / ((2 ^ (-e).toNat : ℕ) : ℚ)

/-- The floor logarithm `⌊log₂ x⌋` for a positive rational: an initial estimate from the
numerator and denominator logarithms, corrected by direct comparison. -/
def floorLog2 (x : ℚ) : ℤ :=
  let e0 : ℤ := (natLog2 x.num.natAbs : ℤ) - (natLog2 x.den : ℤ)
  let e1 : ℤ := if pow2Q (e0 + 1) ≤ x then e0 + 1 else e0
  if x < pow2Q e1 then e1 - 1 else e1

/-- Round a rational to an integer, ties to even (IEEE default). -/
def roundTiesEven (x : ℚ) : ℤ :=
  let f := x.floor
  let r := x - (f : ℚ)
  if r < 1 / 2 then f
  else if 1 / 2 < r then f + 1
  else if f % 2 = 0 then f else f + 1

/-- Round a positive rational to the nearest binary64 value. -/
def roundPosDouble (x : ℚ) : ℚ :=
  let ulp := pow2Q (floorLog2 x - 52)
  ((roundTiesEven (x / ulp) : ℤ) : ℚ) * ulp

/-- Round a rational to the nearest binary64 value (normal range). -/
def roundDouble (x : ℚ) : ℚ :=
  if x = 0 then 0 else if x < 0 then -(roundPosDouble (-x)) else roundPosDouble x

/-- Float multiplication: IEEE requires the correctly rounded product. -/
def fmul (a b : ℚ) : ℚ := roundDouble (a * b)

/-- Float division: IEEE requires the correctly rounded quotient. -/
def fdiv (a b : ℚ) : ℚ := roundDouble (a / b)

-- ===========================================================================
-- Similarity matcher
--
-- `RulesEngine._fuzzy_match` scores candidates with
-- `difflib.SequenceMatcher(None, query.lower(), candidate.lower()).ratio()`.
-- ===========================================================================

/-- Length of the common prefix run of two character lists. -/
def commonRun : List Char → List Char → Nat
  | a :: as, b :: bs => if a = b then commonRun as bs + 1 else 0
  | _, _ => 0

/-- All index pairs `(i, j)` with `i < m`, `j < n`, in `i`-major order. -/
def allPairs (m n : Nat) : List (Nat × Nat) :=
  (List.range m).flatMap (fun i => (List.range n).map (fun j => (i, j)))

/-- One step of the brute-force longest-block search: strict improvement
only, so the earliest `(i, j)` attaining the maximal length is kept. -/
def bestBlockStep (a b : List Char) (best : Nat × Nat × Nat) (ij : Nat × Nat) :
    Nat × Nat × Nat :=
  let k := commonRun (a.drop ij.1) (b.drop ij.2)
  if best.2.2 < k then (ij.1, ij.2, k) else best

/-- Modelled from the spec: `difflib.SequenceMatcher.find_longest_match`
(the Python standard-library routine is not part of this repository).  It
returns the longest contiguous matching block `(i, j, size)`; among
maximal blocks the one starting earliest in `a`, then earliest in `b`.
The length-≥-200 popular-element junk heuristic of `difflib` is not
modelled. -/
def find_longest_match (a b : List Char) : Nat × Nat × Nat :=
  (allPairs (a.length + 1) (b.length + 1)).foldl (bestBlockStep a b) (0, 0, 0)

/-- Total matched characters of the Ratcliff-Obershelp decomposition:
recursively take the longest matching block and recurse on both sides.
`fuel` bounds the recursion depth; every recursive call strictly
decreases the combined length, so `length a + length b + 1` fuel is
exact. -/
def matchTotalFuel : Nat → List Char → List Char → Nat
  | 0, _, _ => 0
  | fuel + 1, a, b =>
    let t := find_longest_match a b
    if t.2.2 = 0 then 0
    else
      matchTotalFuel fuel (a.take t.1) (b.take t.2.1) + t.2.2
        + matchTotalFuel fuel (a.drop (t.1 + t.2.2)) (b.drop (t.2.1 + t.2.2))

/-- Total matched characters `M` between two character lists. -/
def matchTotal (a b : List Char) : Nat := matchTotalFuel (a.length + b.length + 1) a b

/-- Python `str.lower`, character by character (ASCII case folding). -/
def pyLower (s : String) : List Char := s.toList.map Char.toLower

/-- Modelled from the spec: `SequenceMatcher.ratio` of the case-folded
strings — `2*M / T` where `M` is the matched total and `T` the combined
length, and `1` when both strings are empty. -/
def similarity (query candidate : String) : ℚ :=
  let a := pyLower query
  let b := pyLower candidate
  if a.length + b.length = 0 then 1
  else (2 * (matchTotal a b : ℚ)) / ((a.length : ℚ) + (b.length : ℚ))

/-- Loop body of `RulesEngine._fuzzy_match`: replace the current best on a
strictly larger ratio that also reaches the threshold. -/
def fuzzyStep (query : String) (threshold : ℚ) (best : Option String × ℚ)
    (candidate : String) : Option String × ℚ :=
  let r := similarity query candidate
  if best.2 < r ∧ threshold ≤ r then (some candidate, r) else best

/-- The `RulesEngine._fuzzy_match`: best match starts `None` with best ratio
`0.0`. -/
def fuzzy_match (query : String) (candidates : List String) (threshold : ℚ) :
    Option String :=
  (candidates.foldl (fuzzyStep query threshold) ((none : Option String), (0 : ℚ))).1

-- ===========================================================================
-- String and dictionary helpers
-- ===========================================================================

/-- Strip leading and trailing whitespace from a character list
(Python `str.strip`). -/
def trimChars (l : List Char) : List Char :=
  ((l.dropWhile Char.isWhitespace).reverse.dropWhile Char.isWhitespace).reverse

/-- Python `.lower().strip()` normalization used for material names:
case folding character by character, then trimming whitespace. -/
def pyNormalize (s : String) : String :=
  String.mk (trimChars (s.data.map Char.toLower))

/-- Python truthiness of an optional string (`None` and `""` are falsy). -/
def optStrTruthy : Option String → Bool
  | none => false
  | some s => s != ""

/-- Python `a or b` for an optional string `a` and default `b`. -/
def strOr (a : Option String) (b : String) : String :=
  match a with
  | none => b
  | some s => if s = "" then b else s

/-- Left-pad a digit string with zeros to width `w`. -/
def padZeros (s : String) (w : Nat) : String :=
  String.mk (List.replicate (w - s.length) '0') ++ s

/-- Fixed-point rendering of a rational with `prec` fractional digits,
rounding ties to even — models the CPython fixed-point float formatting
used for the numeric display interpolations of the engine (display only;
no check decision reads it back). -/
def fmtFixed (prec : Nat) (q : ℚ) : String :=
  let scaled := roundTiesEven (q * ((10 ^ prec : ℕ) : ℚ))
  let sign := if scaled < 0 then "-" else ""
  let n := scaled.natAbs
  if prec = 0 then sign ++ toString n
  else sign ++ toString (n / 10 ^ prec) ++ "." ++ padZeros (toString (n % 10 ^ prec)) prec

/-- Python dict assignment `m[k] = v`: overwrite in place, preserving the
first-insertion position of the key (dicts preserve insertion order). -/
def dictSet {α : Type} (m : List (String × α)) (k : String) (v : α) :
    List (String × α) :=
  if m.any (fun e => e.1 = k) then m.map (fun e => if e.1 = k then (k, v) else e)
  else m ++ [(k, v)]

/-- Python `m.setdefault(k, []).append(v)` pattern used by the
double-counting check: append `v` to the list stored at `k`. -/
def dictAppend (m : List (String × List String)) (k : String) (v : String) :
    List (String × List String) :=
  if m.any (fun e => e.1 = k) then
    m.map (fun e => if e.1 = k then (e.1, e.2 ++ [v]) else e)
  else m ++ [(k, [v])]

/-- Map a fallible step over a list, propagating the first raised
exception (the translation of a Python `for` loop whose body may raise). -/
def mapExcept {α β : Type} (f : α → Except PyError β) : List α → Except PyError (List β)
  | [] => Except.ok []
  | x :: xs =>
    match f x with
    | Except.error e => Except.error e
    | Except.ok y =>
      match mapExcept f xs with
      | Except.error e => Except.error e
      | Except.ok ys => Except.ok (y :: ys)

/-- The `.value` strings of the `Unit` enumeration (used in descriptions). -/
def unitStr : MUnit → String
  | MUnit.m3 => "m3"
  | MUnit.m2 => "m2"
  | MUnit.m => "m"
  | MUnit.kg => "kg"
  | MUnit.tonne => "tonne"
  | MUnit.each => "each"
  | MUnit.l => "l"
  | MUnit.kwh => "kwh"
  | MUnit.mj => "mj"

-- ===========================================================================
-- Rule descriptors
-- ===========================================================================

/-- A loaded rule descriptor: identifier, display name, enabled flag,
payload fields (typed forms of the YAML payload entries the handlers
actually read: `thresholds` for the carbon check and
`conditions.all[4].value` — the recognized-source list — for the EPD
check), and the remediation template. -/
structure RuleDescr where
  rule_id : String
  name : String
  enabled : Bool := true
  thresholds : List (String × Int) := []
  recognized_sources : List String := []
  remediation : Remediation
deriving DecidableEq, Repr

-- ===========================================================================
-- Check 1: EPD validity (`RulesEngine._check_epd_validity`)
-- ===========================================================================

def epd_validity_finding (check_date : Int) (rule : RuleDescr) (epd : EPDDocument) :
    ComplianceFinding :=
  let issues : List String :=
    (if epd.is_valid_on check_date then []
      else ["EPD expired or not yet valid on " ++ toString check_date])
    ++ (if epd.epd_type = EPDType.productSpecific ∧ epd.is_verified = false then
          ["Product-specific EPD must be third-party verified"] else [])
    ++ (if epd.epd_number = "" then ["Missing EPD registration number"] else [])
    ++ (if rule.recognized_sources.contains epd.source then []
          else ["EPD source \x27" ++ epd.source ++ "\x27 not in recognized list"])
  let passed := issues.isEmpty
  let severity := if epd.epd_type = EPDType.productSpecific then Severity.critical
    else Severity.warning
  { rule_id := rule.rule_id
    rule_name := rule.name
    severity := if passed then Severity.info else severity
    passed := passed
    description := "EPD \x27" ++ epd.product_name ++ "\x27 (" ++ epd.epd_number ++ ")"
      ++ (if passed then ": Valid and verified" else ": " ++ String.intercalate "; " issues)
    entity_id := some epd.id
    entity_type := some "epd"
    evidence_uris := epd.evidence.map (fun ev => ev.uri)
    remediation := rule.remediation }

def check_epd_validity (check_date : Int) (p : ComplianceProject) (rule : RuleDescr) :
    Except PyError (List ComplianceFinding) :=
  Except.ok (p.epds.map (epd_validity_finding check_date rule))

-- ===========================================================================
-- Check 2: material traceability (`RulesEngine._check_material_traceability`)
-- ===========================================================================

/-- The `invoice_products` lookup: normalized product name to (line item,
invoice); later occurrences of a name overwrite earlier ones. -/
def invoice_products (p : ComplianceProject) :
    List (String × (InvoiceLineItem × ERPInvoice)) :=
  p.invoices.foldl
    (fun m invoice =>
      invoice.line_items.foldl
        (fun m li => dictSet m (pyNormalize li.product_name) (li, invoice)) m)
    []

/-- The `variance_pct` computation of the traceability check:
`abs(float(element.quantity - line_item.quantity)) / float(line_item.quantity) * 100`,
i.e. binary floating point on Decimal-derived operands. -/
def quantity_variance_pct (diff qty : ℚ) : ℚ :=
  fmul (fdiv |roundDouble diff| (roundDouble qty)) 100

/-- Material-key resolution for one building-model element: exact
normalized-name hit, else fuzzy match at threshold 0.8 over the invoice
product keys. -/
def resolved_material_key (m : List (String × (InvoiceLineItem × ERPInvoice)))
    (element : IFCElement) : Option String :=
  let key := pyNormalize element.material_name
  if (m.lookup key).isSome then some key
  else fuzzy_match key (m.map (fun e => e.1)) (4 / 5)

def traceability_finding (rule : RuleDescr) (element : IFCElement)
    (issues : List String) : ComplianceFinding :=
  let passed := issues.isEmpty
  { rule_id := rule.rule_id
    rule_name := rule.name
    severity := if passed then Severity.info else Severity.high
    passed := passed
    description := "BIM element \x27" ++ strOr element.name element.ifc_type ++ "\x27 ("
      ++ element.material_name ++ ")"
      ++ (if passed then ": Fully traceable" else ": " ++ String.intercalate "; " issues)
    entity_id := some element.id
    entity_type := some "ifc_element"
    evidence_uris := element.evidence.map (fun ev => ev.uri)
    remediation := rule.remediation }

/-- Evaluate the traceability check body for one element.  When the
element resolves to a line item of equal unit, the variance division
raises `ZeroDivisionError` if the line-item quantity is zero (`float` of
a nonzero normal-range Decimal is nonzero). -/
def check_element_traceability (m : List (String × (InvoiceLineItem × ERPInvoice)))
    (rule : RuleDescr) (element : IFCElement) : Except PyError ComplianceFinding :=
  let issues0 : List String :=
    match resolved_material_key m element with
    | some _ => []
    | none => ["No invoice found for BIM material \x27" ++ element.material_name ++ "\x27"]
  match resolved_material_key m element with
  | none => Except.ok (traceability_finding rule element issues0)
  | some key =>
    match m.lookup key with
    | none => Except.ok (traceability_finding rule element issues0)
    | some (li, invoice) =>
      let issues1 := issues0
        ++ (if li.epd_id = none ∧ li.metadataHasEmissionsFactor = false then
              ["No EPD or emissions factor linked"] else [])
        ++ (if optStrTruthy invoice.supplier_abn then [] else ["Missing supplier ABN"])
      if li.unit = element.unit then
        if li.quantity = 0 then Except.error PyError.zeroDivisionError
        else
          let vp := quantity_variance_pct (element.quantity - li.quantity) li.quantity
          Except.ok (traceability_finding rule element
            (issues1 ++ (if 10 < vp then
              ["Quantity variance " ++ fmtFixed 1 vp ++ "% exceeds ±10% tolerance"]
              else [])))
      else Except.ok (traceability_finding rule element issues1)

def check_material_traceability (check_date : Int) (p : ComplianceProject)
    (rule : RuleDescr) : Except PyError (List ComplianceFinding) :=
  mapExcept (check_element_traceability (invoice_products p) rule)
    (p.bim_models.flatMap (fun bm => bm.elements))

-- ===========================================================================
-- Check 3: NCC embodied carbon (`RulesEngine._check_ncc_embodied_carbon`)
-- ===========================================================================

/-- The thresholds lookup of the rule payload with the commercial default:
`.get(project_type, 850)`. -/
def ncc_threshold (rule : RuleDescr) (p : ComplianceProject) : Int :=
  (rule.thresholds.lookup p.project_type).getD 850

/-- The incomplete-stage messages: a mandatory stage counts as missing
when it is falsy (zero), per `if not epd.lca_stages.a1_a3`. -/
def incomplete_stages (p : ComplianceProject) : List String :=
  p.epds.flatMap (fun epd =>
    (if epd.lca_stages.a1_a3 = 0 then ["EPD " ++ epd.epd_number ++ " missing A1-A3"] else [])
    ++ (if epd.lca_stages.a4 = 0 then ["EPD " ++ epd.epd_number ++ " missing A4"] else [])
    ++ (if epd.lca_stages.a5 = 0 then ["EPD " ++ epd.epd_number ++ " missing A5"] else []))

def check_ncc_embodied_carbon (check_date : Int) (p : ComplianceProject)
    (rule : RuleDescr) : Except PyError (List ComplianceFinding) :=
  let threshold := ncc_threshold rule p
  match p.carbon_intensity_per_m2 with
  | none =>
    Except.ok [{
      rule_id := rule.rule_id
      rule_name := rule.name
      severity := Severity.critical
      passed := false
      description := "Cannot calculate carbon intensity - missing gross floor area"
      entity_id := some p.id
      entity_type := some "project"
      remediation := {
        action := "Provide gross floor area for project"
        responsible_party := "Design team" } }]
  | some ci =>
    let incomplete := incomplete_stages p
    let passed := decide (ci ≤ (threshold : ℚ)) && incomplete.isEmpty
    Except.ok [{
      rule_id := rule.rule_id
      rule_name := rule.name
      severity := if passed then Severity.info else Severity.critical
      passed := passed
      description := "Carbon intensity: " ++ fmtFixed 2 ci ++ " kg CO2-e/m² (threshold: "
        ++ toString threshold ++ " kg CO2-e/m²)"
        ++ (if passed then " - COMPLIANT"
            else (if (threshold : ℚ) < ci then
                " - EXCEEDS threshold by " ++ fmtFixed 2 (ci - (threshold : ℚ)) ++ " kg CO2-e/m²"
              else "")
              ++ (if incomplete.isEmpty then ""
                  else "; Incomplete stages: " ++ String.intercalate "; " incomplete))
      entity_id := some p.id
      entity_type := some "project"
      remediation := rule.remediation }]

-- ===========================================================================
-- Check 4: transport verification (`RulesEngine._check_transport_verification`)
-- ===========================================================================

def transport_leg_finding (rule : RuleDescr) (log : TransportLog) (leg : TransportLeg) :
    ComplianceFinding :=
  let is_international := leg.origin.country ≠ leg.destination.country
  let max_distance : Int := if is_international then 20000 else 5000
  let issues : List String :=
    (if (max_distance : ℚ) < leg.distance_km then
        ["Distance " ++ toString leg.distance_km ++ " km exceeds maximum "
          ++ toString max_distance ++ " km"] else [])
    ++ (match leg.emissions_factor with
        | none => []
        | some ef =>
          if ef = 0 then []
          else if (1 / 100 : ℚ) ≤ ef ∧ ef ≤ 2 then []
          else ["Emissions factor " ++ toString ef
              ++ " outside realistic range (0.01-2.0)"])
    ++ (if (3 / 10 : ℚ) ≤ leg.load_factor ∧ leg.load_factor ≤ 1 then []
        else ["Load factor " ++ toString leg.load_factor
            ++ " outside realistic range (0.3-1.0)"])
  let passed := issues.isEmpty
  { rule_id := rule.rule_id
    rule_name := rule.name
    severity := if passed then Severity.info else Severity.medium
    passed := passed
    description := "Transport leg: " ++ strOr leg.origin.city "Unknown" ++ " → "
      ++ strOr leg.destination.city "Unknown" ++ " (" ++ toString leg.distance_km ++ " km)"
      ++ (if passed then ": Verified" else ": " ++ String.intercalate "; " issues)
    entity_id := some leg.id
    entity_type := some "transport_leg"
    evidence_uris := log.evidence.map (fun ev => ev.uri)
    remediation := rule.remediation }

def check_transport_verification (check_date : Int) (p : ComplianceProject)
    (rule : RuleDescr) : Except PyError (List ComplianceFinding) :=
  Except.ok (p.transport_logs.flatMap (fun log =>
    log.legs.map (transport_leg_finding rule log)))

-- ===========================================================================
-- Check 5: waste circularity (`RulesEngine._check_waste_circularity`)
-- ===========================================================================

/-- The kilograms conversion in the stream loop: tonnes are scaled by 1000, every
other unit is used as-is. -/
def waste_kg (w : WasteStream) : ℚ :=
  if w.unit = MUnit.tonne then w.quantity * 1000 else w.quantity

/-- Accumulated `total_waste` over the stream loop. -/
def total_waste_kg (p : ComplianceProject) : ℚ :=
  (p.waste_streams.map waste_kg).sum

/-- Accumulated `recycled_reused` over the stream loop. -/
def diverted_waste_kg (p : ComplianceProject) : ℚ :=
  ((p.waste_streams.filter (fun w =>
      w.waste_type = WasteType.recycled ∨ w.waste_type = WasteType.reused)).map
    waste_kg).sum

/-- The `(recycled_reused / total_waste) * Decimal(100)` — exact decimal
arithmetic in the source. -/
def diversion_rate (p : ComplianceProject) : ℚ :=
  diverted_waste_kg p / total_waste_kg p * 100

def waste_stream_finding (rule : RuleDescr) (w : WasteStream) : ComplianceFinding :=
  -- The waste-type presence branch of the source can never fire:
  -- every `WasteType` member is truthy.
  let issues : List String :=
    (if w.disposal_facility = "" then ["Missing disposal facility"] else [])
    ++ (if w.waste_type = WasteType.hazardous then
          if w.evidence.any (fun ev => ev.type = EvidenceType.wasteReceipt) then []
          else ["Hazardous waste missing special handling documentation"]
        else [])
    ++ (match w.recycled_content_pct with
        | none => []
        | some pct =>
          if pct = 0 then []
          else if 0 < pct then
            if w.evidence.any (fun ev => ev.type = EvidenceType.certification) then []
            else ["Recycled content claim lacks certification"]
          else [])
  let passed := issues.isEmpty
  { rule_id := rule.rule_id
    rule_name := rule.name
    severity := if passed then Severity.info else Severity.medium
    passed := passed
    description := "Waste stream: " ++ w.material_description ++ " ("
      ++ toString w.quantity ++ " " ++ unitStr w.unit ++ ")"
      ++ (if passed then ": Properly documented" else ": " ++ String.intercalate "; " issues)
    entity_id := some w.id
    entity_type := some "waste_stream"
    evidence_uris := w.evidence.map (fun ev => ev.uri)
    remediation := rule.remediation }

def diversion_rate_finding (p : ComplianceProject) (rule : RuleDescr) :
    ComplianceFinding :=
  let rate := diversion_rate p
  let passed := decide ((70 : ℚ) ≤ rate)
  { rule_id := rule.rule_id
    rule_name := rule.name ++ " - Diversion Rate"
    severity := if passed then Severity.info else Severity.medium
    passed := passed
    description := "Waste diversion rate: " ++ fmtFixed 1 rate ++ "% (target: 70%)"
    entity_id := some p.id
    entity_type := some "project"
    remediation := {
      action := "Increase recycling and reuse to achieve 70% diversion target"
      responsible_party := "Site manager"
      resources := rule.remediation.resources } }

def check_waste_circularity (check_date : Int) (p : ComplianceProject)
    (rule : RuleDescr) : Except PyError (List ComplianceFinding) :=
  Except.ok ((p.waste_streams.map (waste_stream_finding rule))
    ++ (if 0 < total_waste_kg p then [diversion_rate_finding p rule] else []))

-- ===========================================================================
-- Check 6: data quality (`RulesEngine._check_data_quality`)
-- ===========================================================================

/-- The `(primary_data_count / total_materials) * 100` — Python 3 true (float)
division of the two counts, then a float multiplication. -/
def primary_coverage_pct (p : ComplianceProject) : ℚ :=
  let total := p.invoices.length
  let primary := (p.invoices.filter (fun inv => !inv.evidence.isEmpty)).length
  if 0 < total then fmul (fdiv (primary : ℚ) (total : ℚ)) 100 else 0

def check_data_quality (check_date : Int) (p : ComplianceProject)
    (rule : RuleDescr) : Except PyError (List ComplianceFinding) :=
  let pct := primary_coverage_pct p
  let passed := decide ((80 : ℚ) ≤ pct)
  Except.ok [{
    rule_id := rule.rule_id
    rule_name := rule.name
    severity := if passed then Severity.info else Severity.high
    passed := passed
    description := "Primary data coverage: " ++ fmtFixed 1 pct ++ "% (target: 80%)"
      ++ (if passed then " - SUFFICIENT"
          else " - INSUFFICIENT (missing " ++ fmtFixed 1 (80 - pct) ++ "%)")
    entity_id := some p.id
    entity_type := some "project"
    remediation := rule.remediation }]

-- ===========================================================================
-- Check 7: temporal validity (`RulesEngine._check_temporal_validity`)
-- ===========================================================================

def temporal_invoice_finding (check_date : Int) (p : ComplianceProject)
    (rule : RuleDescr) (invoice : ERPInvoice) : ComplianceFinding :=
  let project_start := p.start_date - 30
  let project_end := (p.end_date.getD check_date) + 30
  let issues : List String :=
    (if project_start ≤ invoice.invoice_date ∧ invoice.invoice_date ≤ project_end then []
      else ["Invoice date " ++ toString invoice.invoice_date ++ " outside project period"])
    ++ invoice.line_items.flatMap (fun li =>
        match li.epd_id with
        | none => []
        | some eid =>
          match p.epds.find? (fun e => e.id = eid) with
          | none => []
          | some epd =>
            if epd.is_valid_on invoice.invoice_date then []
            else ["EPD " ++ epd.epd_number ++ " not valid on invoice date"])
  let passed := issues.isEmpty
  { rule_id := rule.rule_id
    rule_name := rule.name
    severity := if passed then Severity.info else Severity.medium
    passed := passed
    description := "Invoice " ++ invoice.invoice_number ++ " dated "
      ++ toString invoice.invoice_date
      ++ (if passed then ": Dates aligned" else ": " ++ String.intercalate "; " issues)
    entity_id := some invoice.id
    entity_type := some "invoice"
    evidence_uris := invoice.evidence.map (fun ev => ev.uri)
    remediation := rule.remediation }

def check_temporal_validity (check_date : Int) (p : ComplianceProject)
    (rule : RuleDescr) : Except PyError (List ComplianceFinding) :=
  Except.ok (p.invoices.map (temporal_invoice_finding check_date p rule))

-- ===========================================================================
-- Check 8: scope boundary (`RulesEngine._check_scope_boundary`)
-- ===========================================================================

/-- The meter loop evaluates `meter.start_date < project.end_date` for
every meter; with `end_date = None` this is a `date < None` comparison,
which raises `TypeError`. -/
def scope_meter_issues (p : ComplianceProject) (meter : UtilityMeter) :
    Except PyError (List String) :=
  match p.end_date with
  | none => Except.error PyError.typeError
  | some ed =>
    Except.ok (if meter.start_date < ed then
      ["Meter " ++ meter.meter_id ++ " readings overlap construction period"] else [])

def check_scope_boundary (check_date : Int) (p : ComplianceProject)
    (rule : RuleDescr) : Except PyError (List ComplianceFinding) :=
  let issues0 : List String :=
    (if p.epds.isEmpty then ["No EPDs documented for Scope 3 Category 1"] else [])
    ++ (if p.transport_logs.isEmpty then ["No transport logs for Scope 3 Category 4"] else [])
  match mapExcept (scope_meter_issues p) p.meters with
  | Except.error e => Except.error e
  | Except.ok meterIssues =>
    let issues := issues0 ++ meterIssues.flatMap id
    let passed := issues.isEmpty
    Except.ok [{
      rule_id := rule.rule_id
      rule_name := rule.name
      severity := if passed then Severity.info else Severity.high
      passed := passed
      description := "GHG Protocol scope boundary alignment"
        ++ (if passed then ": Properly categorized" else ": " ++ String.intercalate "; " issues)
      entity_id := some p.id
      entity_type := some "project"
      remediation := rule.remediation }]

-- ===========================================================================
-- Check 9: double counting (`RulesEngine._check_double_counting`)
-- ===========================================================================

/-- The `material_refs` index: normalized name to the list of references,
building-model elements first (in model/element order), then invoice line
items (in invoice/line order). -/
def material_refs (p : ComplianceProject) : List (String × List String) :=
  let m0 := p.bim_models.foldl
    (fun m bm =>
      bm.elements.foldl
        (fun m el => dictAppend m (pyNormalize el.material_name) ("BIM:" ++ toString el.id))
        m)
    []
  p.invoices.foldl
    (fun m invoice =>
      invoice.line_items.foldl
        (fun m li => dictAppend m (pyNormalize li.product_name)
          ("Invoice:" ++ invoice.invoice_number ++ ":" ++ toString li.line_number))
        m)
    m0

def duplicate_group_finding (p : ComplianceProject) (rule : RuleDescr)
    (material : String) (refs : List String) : ComplianceFinding :=
  { rule_id := rule.rule_id
    rule_name := rule.name
    severity := Severity.critical
    passed := false
    description := "Material \x27" ++ material ++ "\x27 appears in multiple sources: "
      ++ String.intercalate ", " refs
    entity_id := some p.id
    entity_type := some "project"
    remediation := rule.remediation
    material := some material
    references := refs }

def no_duplicates_finding (p : ComplianceProject) (rule : RuleDescr) :
    ComplianceFinding :=
  { rule_id := rule.rule_id
    rule_name := rule.name
    severity := Severity.info
    passed := true
    description := "No double-counting detected across data sources"
    entity_id := some p.id
    entity_type := some "project"
    remediation := {
      action := "Continue monitoring for duplicates"
      responsible_party := rule.remediation.responsible_party
      resources := [] } }

def check_double_counting (check_date : Int) (p : ComplianceProject)
    (rule : RuleDescr) : Except PyError (List ComplianceFinding) :=
  let duplicates := (material_refs p).filter (fun kv => 1 < kv.2.length)
  if duplicates.isEmpty then Except.ok [no_duplicates_finding p rule]
  else Except.ok (duplicates.map (fun kv => duplicate_group_finding p rule kv.1 kv.2))

-- ===========================================================================
-- Check 10: evidence linkage (`RulesEngine._check_evidence_linkage`)
-- ===========================================================================

def epd_evidence_finding (rule : RuleDescr) (epd : EPDDocument) : ComplianceFinding :=
  let issues : List String :=
    (if epd.evidence.isEmpty then ["No evidence documents attached"] else [])
    ++ epd.evidence.flatMap (fun ev =>
        if optStrTruthy ev.hash then []
        else ["Evidence \x27" ++ strOr ev.filename ev.uri ++ "\x27 missing SHA-256 hash"])
  let passed := issues.isEmpty
  { rule_id := rule.rule_id
    rule_name := rule.name
    severity := if passed then Severity.info else Severity.critical
    passed := passed
    description := "EPD " ++ epd.epd_number ++ " evidence linkage"
      ++ (if passed then ": " ++ toString epd.evidence.length ++ " evidence document(s) verified"
          else ": " ++ String.intercalate "; " issues)
    entity_id := some epd.id
    entity_type := some "epd"
    evidence_uris := epd.evidence.map (fun ev => ev.uri)
    remediation := rule.remediation }

def dangling_epd_findings (p : ComplianceProject) (rule : RuleDescr) :
    List ComplianceFinding :=
  p.invoices.flatMap (fun invoice =>
    invoice.line_items.flatMap (fun li =>
      match li.epd_id with
      | none => []
      | some eid =>
        if (p.epds.find? (fun e => e.id = eid)).isSome then []
        else [{
          rule_id := rule.rule_id
          rule_name := rule.name
          severity := Severity.high
          passed := false
          description := "Invoice " ++ invoice.invoice_number ++ " line "
            ++ toString li.line_number ++ " references non-existent EPD " ++ toString eid
          entity_id := some invoice.id
          entity_type := some "invoice"
          remediation := {
            action := "Fix broken EPD reference or provide missing EPD"
            responsible_party := rule.remediation.responsible_party
            resources := rule.remediation.resources } }]))

def check_evidence_linkage (check_date : Int) (p : ComplianceProject)
    (rule : RuleDescr) : Except PyError (List ComplianceFinding) :=
  Except.ok ((p.epds.map (epd_evidence_finding rule)) ++ dangling_epd_findings p rule)

-- ===========================================================================
-- Generic fallback handler and dispatch (`RulesEngine._generic_check`,
-- `RulesEngine.evaluate_project`)
-- ===========================================================================

def generic_check (check_date : Int) (p : ComplianceProject) (rule : RuleDescr) :
    Except PyError (List ComplianceFinding) :=
  Except.ok [{
    rule_id := rule.rule_id
    rule_name := rule.name
    severity := Severity.warning
    passed := false
    description := "Rule \x27" ++ rule.rule_id ++ "\x27 not yet implemented"
    entity_id := some p.id
    entity_type := some "project"
    remediation := {
      action := "Implement rule handler"
      responsible_party := "Development team"
      resources := [] } }]

/-- The getattr-based dispatch: the registry of handlers named
with the _check_ prefix plus the rule identifier on the engine class. -/
def handlerFor (rule_id : String) :
    Option (Int → ComplianceProject → RuleDescr → Except PyError (List ComplianceFinding)) :=
  match rule_id with
  | "epd_validity" => some check_epd_validity
  | "material_traceability" => some check_material_traceability
  | "ncc_embodied_carbon" => some check_ncc_embodied_carbon
  | "transport_verification" => some check_transport_verification
  | "waste_circularity" => some check_waste_circularity
  | "data_quality" => some check_data_quality
  | "temporal_validity" => some check_temporal_validity
  | "scope_boundary" => some check_scope_boundary
  | "double_counting" => some check_double_counting
  | "evidence_linkage" => some check_evidence_linkage
  | _ => none

/-- The rule loop of `evaluate_project`: skip disabled rules, dispatch to
the registered handler or the generic fallback, and concatenate findings.
The project record is threaded through every step: the source contains no
assignment to the project or to any nested entity, so each step passes it
on unchanged. -/
def run_rules (check_date : Int) :
    List RuleDescr → ComplianceProject →
      Except PyError (List ComplianceFinding × ComplianceProject)
  | [], p => Except.ok ([], p)
  | rule :: rest, p =>
    if rule.enabled then
      match (match handlerFor rule.rule_id with
             | some h => h check_date p rule
             | none => generic_check check_date p rule) with
      | Except.error e => Except.error e
      | Except.ok fs =>
        match run_rules check_date rest p with
        | Except.error e => Except.error e
        | Except.ok (fs2, p2) => Except.ok (fs ++ fs2, p2)
    else run_rules check_date rest p

/-- The `RulesEngine.evaluate_project`: build the report, run every enabled
rule, then compute the summary.  Returns the report together with the
project record as it stands after evaluation. -/
def evaluate_project (check_date : Int) (version : String) (rules : List RuleDescr)
    (p : ComplianceProject) : Except PyError (ComplianceReport × ComplianceProject) :=
  match run_rules check_date rules p with
  | Except.error e => Except.error e
  | Except.ok (fs, p2) =>
    Except.ok
      (({ project_id := p.id
          project_name := p.project_name
          rules_version := version
          findings := fs } : ComplianceReport).calculate_summary, p2)

-- ===========================================================================
-- Rule-catalogue loading (`RulesEngine._load_rules`)
-- ===========================================================================

/-- Values a parsed rule-catalogue document can contain. -/
inductive YVal where
  | vnull
  | vbool (b : Bool)
  | vint (n : Int)
  | vstr (s : String)
  | vlist (items : List YVal)
  | vdict (entries : List (String × YVal))

/-- Python `for item in data` over the parsed document: a list yields its
items, a dict yields its keys, a string yields its characters; `None`,
booleans and numbers are not iterable and raise `TypeError`. -/
def pyIter : YVal → Except PyError (List YVal)
  | YVal.vlist items => Except.ok items
  | YVal.vdict entries => Except.ok (entries.map (fun e => YVal.vstr e.1))
  | YVal.vstr s => Except.ok (s.toList.map (fun c => YVal.vstr (String.mk [c])))
  | YVal.vnull => Except.error PyError.typeError
  | YVal.vbool _ => Except.error PyError.typeError
  | YVal.vint _ => Except.error PyError.typeError

/-- The `RulesEngine._load_rules` rule extraction: keep exactly the items that
are dicts carrying a `rule_id` key.  (The `global_settings` and `version`
scans iterate the same document and raise nothing further.) -/
def load_rules (doc : YVal) : Except PyError (List (List (String × YVal))) :=
  match pyIter doc with
  | Except.error e => Except.error e
  | Except.ok items =>
    Except.ok (items.filterMap (fun it =>
      match it with
      | YVal.vdict entries =>
        if entries.any (fun e => e.1 = "rule_id") then some entries else none
      | _ => none))

-- ===========================================================================
-- Specification-side reference collectors for the double-counting check
-- ===========================================================================

/-- The building-model references of a normalized material name, in
model/element order. -/
def bim_refs (p : ComplianceProject) (key : String) : List String :=
  ((p.bim_models.flatMap (fun bm => bm.elements)).filter
    (fun el => pyNormalize el.material_name = key)).map
    (fun el => "BIM:" ++ toString el.id)

/-- The invoice line-item references of a normalized product name, in
invoice/line order. -/
def invoice_refs (p : ComplianceProject) (key : String) : List String :=
  (((p.invoices.flatMap (fun invoice => invoice.line_items.map (fun li => (invoice, li))))).filter
    (fun x => pyNormalize x.2.product_name = key)).map
    (fun x => "Invoice:" ++ x.1.invoice_number ++ ":" ++ toString x.2.line_number)

/-- All references of a normalized name across both sources. -/
def refs_of (p : ComplianceProject) (key : String) : List String :=
  bim_refs p key ++ invoice_refs p key

/-- The `insertAll m prs` runs the `material_refs` insertion loop over an
explicit list of (key, reference) pairs. -/
def insertAll (m : List (String × List String)) (prs : List (String × String)) :
    List (String × List String) :=
  prs.foldl (fun m kv => dictAppend m kv.1 kv.2) m

/-- The (key, reference) pairs the double-counting check inserts, in
insertion order. -/
def ref_pairs (p : ComplianceProject) : List (String × String) :=
  (p.bim_models.flatMap (fun bm => bm.elements)).map
    (fun el => (pyNormalize el.material_name, "BIM:" ++ toString el.id))
  ++ (p.invoices.flatMap (fun invoice => invoice.line_items.map (fun li => (invoice, li)))).map
    (fun x => (pyNormalize x.2.product_name,
      "Invoice:" ++ x.1.invoice_number ++ ":" ++ toString x.2.line_number))

-- ===========================================================================
-- Loop invariant of the fuzzy-match fold
-- ===========================================================================

/-- Invariant of the `_fuzzy_match` loop after scanning `seen`: either no
best match yet and every scanned candidate had ratio `≤ 0` or below the
threshold, or the best match was scanned, its ratio is positive, reaches
the threshold, and dominates every scanned candidate. -/
def FuzzyInv (query : String) (threshold : ℚ) (seen : List String)
    (st : Option String × ℚ) : Prop :=
  match st.1 with
  | none => st.2 = 0 ∧ ∀ c ∈ seen, similarity query c ≤ 0 ∨ similarity query c < threshold
  | some m => m ∈ seen ∧ st.2 = similarity query m ∧ 0 < st.2 ∧ threshold ≤ st.2
      ∧ ∀ c ∈ seen, similarity query c ≤ st.2

-- ===========================================================================
-- Concrete evaluation inputs used by the witnesses and counterexamples
-- ===========================================================================

/-- C2 witness: an EPD whose stage totals sum to exactly the commercial
threshold over a 1 m² floor area. -/
def wEpd2 : EPDDocument :=
  { id := 21
    epd_number := "EPD-2024-021"
    product_name := "Boundary Concrete"
    lca_stages := { a1_a3 := 800, a4 := 30, a5 := 20 }
    valid_from := 0
    valid_until := 1000
    epd_type := EPDType.productSpecific }

def wProj2 : ComplianceProject :=
  { id := 2
    project_name := "Boundary Project"
    project_type := "commercial"
    start_date := 0
    gross_floor_area_m2 := some 1
    epds := [wEpd2] }

def wRule2 : RuleDescr :=
  { rule_id := "ncc_embodied_carbon"
    name := "NCC 2022 Embodied Carbon"
    thresholds := [("commercial", 850)]
    remediation := { action := "Reduce embodied carbon", responsible_party := "Design team" } }

/-- C3 counterexample: two building-model elements share a material name;
there are no invoices at all, so no cross-source duplication exists. -/
def wProj3 : ComplianceProject :=
  { id := 3
    project_name := "Single-Source Project"
    start_date := 0
    bim_models := [{ id := 31
                     elements := [
                       { id := 311
                         quantity := 1
                         unit := MUnit.m3
                         material_name := "Concrete 32MPa" },
                       { id := 312
                         quantity := 2
                         unit := MUnit.m3
                         material_name := "Concrete 32MPa" }] }] }

def wRule3 : RuleDescr :=
  { rule_id := "double_counting"
    name := "Double-Counting Prevention"
    remediation := { action := "Deduplicate", responsible_party := "Data team" } }

/-- C5 failing input: a project without an end date but with a meter. -/
def wProj5 : ComplianceProject :=
  { id := 5
    project_name := "Open-Ended Project"
    start_date := 0
    end_date := none
    meters := [{ id := 51, meter_id := "MTR-1", start_date := 10, end_date := 20 }] }

def wRule5 : RuleDescr :=
  { rule_id := "scope_boundary"
    name := "Scope Boundary Consistency"
    remediation := { action := "Fix scopes", responsible_party := "Carbon accountant" } }

/-- C7 counterexample: a matched element/line-item pair with equal units
whose exact variance is 10.000000000000000001 % — just above the
tolerance — while the float computation yields exactly 10.0. -/
def wLi7 : InvoiceLineItem :=
  { id := 71
    line_number := 1
    product_name := "Steel Beams"
    quantity := 1
    unit := MUnit.kg
    epd_id := some 1
    metadataHasEmissionsFactor := true }

def wInv7 : ERPInvoice :=
  { id := 72
    invoice_number := "INV-7"
    supplier_abn := some "12345678901"
    invoice_date := 0
    line_items := [wLi7] }

def wElem7 : IFCElement :=
  { id := 73
    quantity := (110000000000000000001 : ℚ) / 100000000000000000000
    unit := MUnit.kg
    material_name := "Steel Beams" }

def wProj7 : ComplianceProject :=
  { id := 7
    project_name := "Variance Boundary Project"
    start_date := 0
    bim_models := [{ id := 74, elements := [wElem7] }]
    invoices := [wInv7] }

def wRule7 : RuleDescr :=
  { rule_id := "material_traceability"
    name := "Material Traceability"
    remediation := { action := "Reconcile quantities", responsible_party := "QS team" } }

/-- C7 witness: a project with one recycled waste stream, for the
diversion-rate part of the amended claim. -/
def wProj7b : ComplianceProject :=
  { id := 75
    project_name := "Waste Project"
    start_date := 0
    waste_streams := [{ id := 76
                        waste_type := WasteType.recycled
                        quantity := 50
                        unit := MUnit.tonne
                        disposal_facility := "Recycling Center" }] }

def wRule7b : RuleDescr :=
  { rule_id := "waste_circularity"
    name := "Waste Reporting and Circularity"
    remediation := { action := "Document waste", responsible_party := "Site manager" } }

/-- C8 counterexample: an enabled rule with a registered handler
(`epd_validity`) evaluated on a project with no EPDs contributes zero
findings. -/
def wProj8 : ComplianceProject :=
  { id := 8
    project_name := "Empty Project"
    start_date := 0
    end_date := some 100 }

def wRule8 : RuleDescr :=
  { rule_id := "epd_validity"
    name := "EPD Validity and Certification"
    recognized_sources := ["EPD Australasia"]
    remediation := { action := "Provide EPDs", responsible_party := "Suppliers" } }

/-- C8 witness: an enabled catalogue rule with no registered handler. -/
def wRule8gen : RuleDescr :=
  { rule_id := "future_rule"
    name := "Future Rule"
    remediation := { action := "Await implementation", responsible_party := "Development team" } }

/-- C9 witness project. -/
def wProj9 : ComplianceProject :=
  { id := 9
    project_name := "Frame Project"
    start_date := 0
    end_date := some 10 }

/-- C10 witness: an element resolving exactly to a same-unit line item of
zero quantity. -/
def wLi10 : InvoiceLineItem :=
  { id := 101
    line_number := 1
    product_name := "Glulam Beam"
    quantity := 0
    unit := MUnit.m3 }

def wInv10 : ERPInvoice :=
  { id := 102
    invoice_number := "INV-10"
    supplier_abn := some "98765432109"
    invoice_date := 0
    line_items := [wLi10] }

def wElem10 : IFCElement :=
  { id := 103
    quantity := 5
    unit := MUnit.m3
    material_name := "Glulam Beam" }

def wProj10 : ComplianceProject :=
  { id := 10
    project_name := "Zero Quantity Project"
    start_date := 0
    end_date := some 100
    bim_models := [{ id := 104, elements := [wElem10] }]
    invoices := [wInv10] }

def wRule10 : RuleDescr :=
  { rule_id := "material_traceability"
    name := "Material Traceability"
    remediation := { action := "Reconcile quantities", responsible_party := "QS team" } }

-- ===========================================================================
-- Theorems
-- ===========================================================================

attribute [local semireducible] Rat.inv Rat.mul Rat.add Rat.sub Rat.ofScientific

-- ===========================================================================
-- C1: summary invariants
-- ===========================================================================

theorem calculate_summary_findings (r : ComplianceReport) :
    (r.calculate_summary).findings = r.findings := rfl

/-- C1: after `calculate_summary` runs on a report, `total_checks` equals
`passed_checks + failed_checks`; each severity bucket counts exactly the
failed findings of that severity, with LOW and WARNING merged into the
`low_count` bucket; `compliant` holds exactly when both the critical and
the high bucket are empty; and re-running the computation on the same
finding list returns the identical summary. -/
theorem calculate_summary_invariants (r : ComplianceReport) :
    (r.calculate_summary).total_checks
        = (r.calculate_summary).passed_checks + (r.calculate_summary).failed_checks
    ∧ (r.calculate_summary).critical_count
        = (r.findings.filter (fun f => !f.passed && f.severity = Severity.critical)).length
    ∧ (r.calculate_summary).high_count
        = (r.findings.filter (fun f => !f.passed && f.severity = Severity.high)).length
    ∧ (r.calculate_summary).medium_count
        = (r.findings.filter (fun f => !f.passed && f.severity = Severity.medium)).length
    ∧ (r.calculate_summary).low_count
        = (r.findings.filter
            (fun f => !f.passed && (f.severity = Severity.low || f.severity = Severity.warning))).length
    ∧ ((r.calculate_summary).compliant
        ↔ (r.calculate_summary).critical_count = 0 ∧ (r.calculate_summary).high_count = 0)
    ∧ (r.calculate_summary).calculate_summary = r.calculate_summary := by
  refine ⟨?_, rfl, rfl, rfl, rfl, ?_, ?_⟩
  · show r.findings.length
      = (r.findings.filter (fun f => f.passed)).length
        + (r.findings.length - (r.findings.filter (fun f => f.passed)).length)
    have h := List.length_filter_le (fun f => f.passed) r.findings
    omega
  · show ((decide _ && decide _) = true ↔ _)
    rw [Bool.and_eq_true, decide_eq_true_eq, decide_eq_true_eq]
    exact Iff.rfl
  · rfl

-- ===========================================================================
-- Generic list helper lemmas
-- ===========================================================================

theorem flatMap_eq_nil_of_forall {α β : Type} (l : List α) (f : α → List β)
    (h : ∀ x ∈ l, f x = []) : l.flatMap f = [] := by
  induction l with
  | nil => rfl
  | cons x xs ih =>
    show f x ++ xs.flatMap f = []
    rw [h x (by simp), ih (fun y hy => h y (by simp [hy]))]
    rfl

-- ===========================================================================
-- C2: carbon-intensity threshold check
-- ===========================================================================

/-- C2: for a project whose gross floor area is present (truthy, hence
usable as a divisor) and whose EPDs all carry the mandatory A1-A3, A4 and
A5 stage values (truthy, i.e. nonzero — the presence test used by the code), the
carbon check emits exactly one finding, which passes exactly when total
embodied carbon divided by gross floor area is at most the project-type
threshold (default 850), and which carries severity CRITICAL when it
fails and INFO when it passes; equality with the threshold passes. -/
theorem check_ncc_embodied_carbon_boundary (check_date : Int) (p : ComplianceProject)
    (rule : RuleDescr) (g : ℚ) (hg : p.gross_floor_area_m2 = some g) (hg0 : g ≠ 0)
    (hstages : ∀ epd ∈ p.epds,
      epd.lca_stages.a1_a3 ≠ 0 ∧ epd.lca_stages.a4 ≠ 0 ∧ epd.lca_stages.a5 ≠ 0) :
    ∃ f, check_ncc_embodied_carbon check_date p rule = Except.ok [f]
      ∧ f.passed = decide (p.total_embodied_carbon / g ≤ (ncc_threshold rule p : ℚ))
      ∧ f.severity = (if p.total_embodied_carbon / g ≤ (ncc_threshold rule p : ℚ)
          then Severity.info else Severity.critical) := by
  have hinc : incomplete_stages p = [] := by
    apply flatMap_eq_nil_of_forall
    intro epd hepd
    obtain ⟨h1, h2, h3⟩ := hstages epd hepd
    simp [h1, h2, h3]
  have hci : p.carbon_intensity_per_m2 = some (p.total_embodied_carbon / g) := by
    simp [ComplianceProject.carbon_intensity_per_m2, hg, hg0]
  unfold check_ncc_embodied_carbon
  rw [hci]
  refine ⟨_, rfl, ?_, ?_⟩
  · simp [hinc]
  · simp [hinc]

/-- C2 witness: at gross floor area 1 m² and stage totals 800+30+20, the
intensity equals the commercial threshold 850 exactly and the single
finding passes with severity INFO. -/
theorem check_ncc_embodied_carbon_witness :
    wProj2.total_embodied_carbon / 1 = (ncc_threshold wRule2 wProj2 : ℚ)
    ∧ ∃ f, check_ncc_embodied_carbon 0 wProj2 wRule2 = Except.ok [f]
        ∧ f.passed = true ∧ f.severity = Severity.info := by
  obtain ⟨f, h1, h2, h3⟩ :=
    check_ncc_embodied_carbon_boundary 0 wProj2 wRule2 1 rfl (by decide) (by decide)
  have hle : wProj2.total_embodied_carbon / 1 ≤ ((ncc_threshold wRule2 wProj2 : Int) : ℚ) := by
    decide
  refine ⟨by decide, f, h1, ?_, ?_⟩
  · rw [h2]
    exact decide_eq_true hle
  · rw [h3, if_pos hle]

-- ===========================================================================
-- C4: rule-catalogue loading
-- ===========================================================================

/-- C4 counterexample: a list document whose only entry lacks a
`rule_id` loads successfully with the entry silently dropped, and a
mapping (non-list) document also loads successfully — no `ConfigError`
is raised in either case. -/
theorem load_rules_counterexample :
    load_rules (YVal.vlist [YVal.vdict [("name", YVal.vstr "x")]]) = Except.ok []
    ∧ load_rules (YVal.vdict [("rule_id", YVal.vstr "r1")]) = Except.ok [] :=
  ⟨rfl, rfl⟩

/-- C4 amended: rule loading never fails with `ConfigError`.  Any
iterable document loads successfully — a list document yields exactly its
mapping entries that carry a `rule_id` key, with the remaining entries
silently dropped (an incomplete catalogue) — and only a non-iterable
document raises, with a `TypeError`. -/
theorem load_rules_amended :
    (∀ doc e, load_rules doc = Except.error e → e = PyError.typeError)
    ∧ (∀ items, ∃ rules, load_rules (YVal.vlist items) = Except.ok rules
        ∧ ∀ entries, entries ∈ rules ↔
            (YVal.vdict entries ∈ items ∧ ∃ v, ("rule_id", v) ∈ entries)) := by
  constructor
  · intro doc e h
    cases doc <;> simp [load_rules, pyIter] at h <;> exact h.symm
  · intro items
    refine ⟨_, rfl, ?_⟩
    intro entries
    rw [List.mem_filterMap]
    constructor
    · rintro ⟨it, hmem, hsome⟩
      cases it <;> simp at hsome
      rcases hsome with ⟨hany, hEq⟩
      subst hEq
      exact ⟨hmem, hany⟩
    · rintro ⟨hmem, v, hv⟩
      refine ⟨YVal.vdict entries, hmem, ?_⟩
      simp
      exact ⟨v, hv⟩

/-- C4 witness: the amended statement applied to a non-iterable document
(`None`) and to a concrete two-entry list, one entry with a `rule_id`
and one without. -/
theorem load_rules_amended_witness :
    PyError.typeError = PyError.typeError
    ∧ ∃ rules,
        load_rules (YVal.vlist [YVal.vdict [("rule_id", YVal.vstr "r1")],
          YVal.vdict [("name", YVal.vstr "x")]]) = Except.ok rules
        ∧ ([("rule_id", YVal.vstr "r1")] ∈ rules ↔
            (YVal.vdict [("rule_id", YVal.vstr "r1")] ∈
                [YVal.vdict [("rule_id", YVal.vstr "r1")], YVal.vdict [("name", YVal.vstr "x")]]
              ∧ ∃ v, ("rule_id", v) ∈ [("rule_id", YVal.vstr "r1")])) := by
  have h1 := load_rules_amended.1 YVal.vnull PyError.typeError rfl
  obtain ⟨rules, h2, h3⟩ := load_rules_amended.2
    [YVal.vdict [("rule_id", YVal.vstr "r1")], YVal.vdict [("name", YVal.vstr "x")]]
  exact ⟨h1, rules, h2, h3 [("rule_id", YVal.vstr "r1")]⟩

-- ===========================================================================
-- C5: scope-boundary check with absent end date
-- ===========================================================================

/-- C5: on a project with no end date and one utility meter, the
scope-boundary check raises `TypeError` (the `meter.start_date <
project.end_date` comparison against `None`), and the whole evaluation
of a catalogue containing that rule raises instead of producing a
report — the code violates the no-throw-on-data-quality requirement. -/
theorem check_scope_boundary_raises_on_missing_end_date :
    check_scope_boundary 0 wProj5 wRule5 = Except.error PyError.typeError
    ∧ ∀ version, evaluate_project 0 version [wRule5] wProj5
        = Except.error PyError.typeError :=
  ⟨rfl, fun version => rfl⟩

-- ===========================================================================
-- C6: fuzzy matcher
-- ===========================================================================

theorem fuzzy_fold_inv (query : String) (threshold : ℚ) :
    ∀ (cs seen : List String) (st : Option String × ℚ),
      FuzzyInv query threshold seen st →
      FuzzyInv query threshold (seen ++ cs) (cs.foldl (fuzzyStep query threshold) st) := by
  intro cs
  induction cs with
  | nil =>
    intro seen st h
    simpa using h
  | cons c cs ih =>
    intro seen st h
    have hstep : FuzzyInv query threshold (seen ++ [c]) (fuzzyStep query threshold st c) := by
      obtain ⟨b, r⟩ := st
      by_cases hcond : r < similarity query c ∧ threshold ≤ similarity query c
      · have hr0 : 0 ≤ r := by
          cases b with
          | none =>
            have h0 : r = 0 := h.1
            rw [h0]
          | some m =>
            have h0 : 0 < r := h.2.2.1
            exact le_of_lt h0
        have hpos : 0 < similarity query c := lt_of_le_of_lt hr0 hcond.1
        show FuzzyInv query threshold (seen ++ [c])
          (if r < similarity query c ∧ threshold ≤ similarity query c then
            (some c, similarity query c) else (b, r))
        rw [if_pos hcond]
        refine ⟨List.mem_append_right _ (by simp), rfl, hpos, hcond.2, ?_⟩
        intro c2 hc2
        rcases List.mem_append.mp hc2 with hseen | hc
        · cases b with
          | none =>
            rcases h.2 c2 hseen with hle | hlt
            · exact le_trans hle (le_of_lt hpos)
            · exact le_trans (le_of_lt hlt) hcond.2
          | some m =>
            have hbound : similarity query c2 ≤ r := h.2.2.2.2 c2 hseen
            exact le_trans hbound (le_of_lt hcond.1)
        · have hcc : c2 = c := by simpa using hc
          rw [hcc]
      · show FuzzyInv query threshold (seen ++ [c])
          (if r < similarity query c ∧ threshold ≤ similarity query c then
            (some c, similarity query c) else (b, r))
        rw [if_neg hcond]
        rcases not_and_or.mp hcond with h1 | h2
        · have hle : similarity query c ≤ r := le_of_not_lt h1
          cases b with
          | none =>
            have h0 : r = 0 := h.1
            refine ⟨h.1, ?_⟩
            intro c2 hc2
            rcases List.mem_append.mp hc2 with hseen | hc
            · exact h.2 c2 hseen
            · have hcc : c2 = c := by simpa using hc
              subst hcc
              rw [h0] at hle
              exact Or.inl hle
          | some m =>
            refine ⟨List.mem_append_left _ h.1, h.2.1, h.2.2.1, h.2.2.2.1, ?_⟩
            intro c2 hc2
            rcases List.mem_append.mp hc2 with hseen | hc
            · exact h.2.2.2.2 c2 hseen
            · have hcc : c2 = c := by simpa using hc
              subst hcc
              exact hle
        · have hlt : similarity query c < threshold := lt_of_not_le h2
          cases b with
          | none =>
            refine ⟨h.1, ?_⟩
            intro c2 hc2
            rcases List.mem_append.mp hc2 with hseen | hc
            · exact h.2 c2 hseen
            · have hcc : c2 = c := by simpa using hc
              subst hcc
              exact Or.inr hlt
          | some m =>
            have hthr : threshold ≤ r := h.2.2.2.1
            refine ⟨List.mem_append_left _ h.1, h.2.1, h.2.2.1, h.2.2.2.1, ?_⟩
            intro c2 hc2
            rcases List.mem_append.mp hc2 with hseen | hc
            · exact h.2.2.2.2 c2 hseen
            · have hcc : c2 = c := by simpa using hc
              subst hcc
              exact le_trans (le_of_lt hlt) hthr
    have hrec := ih (seen ++ [c]) (fuzzyStep query threshold st c) hstep
    rw [← List.append_cons] at hrec
    exact hrec

/-- C6 amended: for every query, candidate list and threshold, when the
matcher returns a candidate, the case-folded similarity
ratio of that candidate to the query is positive, reaches the threshold,
and is maximal among the candidates; when it returns no match, every ratio
is either zero (never replaces the initial best of `0.0` under the
strict `>`) or below the threshold.  A ratio exactly equal to the
threshold is accepted (witness at 0.8). -/
theorem fuzzy_match_spec (query : String) (cs : List String) (t : ℚ) :
    (∀ c, fuzzy_match query cs t = some c →
      c ∈ cs ∧ 0 < similarity query c ∧ t ≤ similarity query c
        ∧ ∀ c2 ∈ cs, similarity query c2 ≤ similarity query c)
    ∧ (fuzzy_match query cs t = none →
      ∀ c ∈ cs, similarity query c ≤ 0 ∨ similarity query c < t) := by
  have hinv := fuzzy_fold_inv query t cs [] (none, 0) ⟨rfl, by simp⟩
  rw [List.nil_append] at hinv
  constructor
  · intro c hc
    have hc2 : (cs.foldl (fuzzyStep query t) (none, 0)).1 = some c := hc
    unfold FuzzyInv at hinv
    rw [hc2] at hinv
    obtain ⟨hmem, heq, hpos, hthr, hmax⟩ := hinv
    rw [heq] at hpos hthr hmax
    exact ⟨hmem, hpos, hthr, hmax⟩
  · intro hc
    have hc2 : (cs.foldl (fuzzyStep query t) (none, 0)).1 = none := hc
    unfold FuzzyInv at hinv
    rw [hc2] at hinv
    exact hinv.2

/-- C6 counterexample: at threshold 0, the candidate "cd" has the maximal
ratio (zero) and that ratio reaches the threshold, yet the matcher
returns no match — the claimed behaviour of returning the maximal
candidate whose ratio reaches the threshold fails as stated. -/
theorem fuzzy_match_counterexample :
    fuzzy_match "ab" ["cd"] 0 = none
    ∧ similarity "ab" "cd" = 0
    ∧ (0 : ℚ) ≤ similarity "ab" "cd" := by
  refine ⟨by decide, by decide, by decide⟩

/-- C6 witness: at the default threshold 0.8, the candidate "abcdxy" has
ratio exactly 4/5 = 0.8 against "abcd" and is accepted and maximal. -/
theorem fuzzy_match_spec_witness :
    similarity "abcd" "abcdxy" = 4 / 5
    ∧ ("abcdxy" ∈ ["abcdxy"] ∧ 0 < similarity "abcd" "abcdxy"
        ∧ (4 / 5 : ℚ) ≤ similarity "abcd" "abcdxy"
        ∧ ∀ c2 ∈ ["abcdxy"], similarity "abcd" c2 ≤ similarity "abcd" "abcdxy") :=
  ⟨by decide, (fuzzy_match_spec "abcd" ["abcdxy"] (4 / 5)).1 "abcdxy" (by decide)⟩

-- ===========================================================================
-- C3: double-counting detection — dictionary lemmas
-- ===========================================================================

theorem map_dictfn_id (rest : List (String × List String)) (k : String) (v : String)
    (hk : ∀ e ∈ rest, e.1 ≠ k) :
    rest.map (fun e => if e.1 = k then (e.1, e.2 ++ [v]) else e) = rest := by
  induction rest with
  | nil => rfl
  | cons e rest ih =>
    have h1 : e.1 ≠ k := hk e (by simp)
    simp only [List.map_cons, if_neg h1]
    rw [ih (fun e2 he2 => hk e2 (by simp [he2]))]

theorem lookup_map_dictfn (rest : List (String × List String)) (k v : String)
    (k2 : String) (hne : k2 ≠ k) :
    (rest.map (fun e => if e.1 = k then (e.1, e.2 ++ [v]) else e)).lookup k2
      = rest.lookup k2 := by
  induction rest with
  | nil => rfl
  | cons e rest ih =>
    obtain ⟨k1, vs⟩ := e
    simp only [List.map_cons]
    by_cases hek : (k1, vs).1 = k
    · rw [if_pos hek]
      have hb : (k2 == k1) = false := by
        simp only [beq_eq_false_iff_ne, ne_eq]
        intro hK
        exact hne (by rw [hK]; exact hek)
      simp only [List.lookup, hb]
      exact ih
    · rw [if_neg hek]
      simp only [List.lookup]
      cases hbe : (k2 == k1) with
      | true => rfl
      | false => exact ih

theorem lookup_append_single_ne (m : List (String × List String)) (k : String)
    (x : List String) (k2 : String) (hne : k2 ≠ k) :
    (m ++ [(k, x)]).lookup k2 = m.lookup k2 := by
  induction m with
  | nil =>
    have hb : (k2 == k) = false := beq_eq_false_iff_ne.mpr hne
    simp only [List.nil_append, List.lookup, hb]
  | cons e m ih =>
    obtain ⟨k1, vs⟩ := e
    simp only [List.cons_append, List.lookup]
    cases hbe : (k2 == k1) with
    | true => rfl
    | false => exact ih

theorem dictAppend_cons_ne (k1 : String) (vs : List String)
    (rest : List (String × List String)) (k v : String) (hne : k1 ≠ k) :
    dictAppend ((k1, vs) :: rest) k v = (k1, vs) :: dictAppend rest k v := by
  by_cases hany : rest.any (fun e => e.1 = k) = true
  · simp [dictAppend, hany, hne]
  · simp [dictAppend, hany, hne]

theorem dictAppend_cons_eq (vs : List String) (rest : List (String × List String))
    (k v : String) (hk : ∀ e ∈ rest, e.1 ≠ k) :
    dictAppend ((k, vs) :: rest) k v = (k, vs ++ [v]) :: rest := by
  simp [dictAppend]
  rw [map_dictfn_id rest k v hk]

theorem lookup_dictAppend_self (m : List (String × List String)) (k v : String)
    (hm : (m.map Prod.fst).Nodup) :
    (dictAppend m k v).lookup k = some ((m.lookup k).getD [] ++ [v]) := by
  induction m with
  | nil =>
    show ([] ++ [(k, [v])] : List (String × List String)).lookup k = _
    simp [List.lookup]
  | cons e m ih =>
    obtain ⟨k1, vs⟩ := e
    by_cases hek : k1 = k
    · subst hek
      have hk : ∀ e ∈ m, e.1 ≠ k1 := by
        intro e2 he2 hcontra
        have hmem : e2.1 ∈ m.map Prod.fst := List.mem_map_of_mem Prod.fst he2
        rw [hcontra] at hmem
        exact (List.nodup_cons.mp hm).1 hmem
      rw [dictAppend_cons_eq vs m k1 v hk]
      simp [List.lookup]
    · rw [dictAppend_cons_ne k1 vs m k v hek]
      have hb : (k == k1) = false := by
        simp only [beq_eq_false_iff_ne, ne_eq]
        intro hK
        exact hek hK.symm
      simp only [List.lookup, hb]
      exact ih (List.nodup_cons.mp hm).2

theorem lookup_dictAppend_ne (m : List (String × List String)) (k v k2 : String)
    (hne : k2 ≠ k) :
    (dictAppend m k v).lookup k2 = m.lookup k2 := by
  unfold dictAppend
  by_cases hany : m.any (fun e => e.1 = k) = true
  · rw [if_pos hany]
    exact lookup_map_dictfn m k v k2 hne
  · rw [if_neg hany]
    exact lookup_append_single_ne m k [v] k2 hne

theorem dictAppend_keys (m : List (String × List String)) (k v : String) :
    (dictAppend m k v).map Prod.fst
      = if m.any (fun e => e.1 = k) = true then m.map Prod.fst
        else m.map Prod.fst ++ [k] := by
  unfold dictAppend
  by_cases hany : m.any (fun e => e.1 = k) = true
  · rw [if_pos hany, if_pos hany, List.map_map]
    apply List.map_congr_left
    intro e he
    by_cases hek : e.1 = k
    · simp [hek]
    · simp [hek]
  · rw [if_neg hany, if_neg hany]
    simp

theorem keys_nodup_dictAppend (m : List (String × List String)) (k v : String)
    (hm : (m.map Prod.fst).Nodup) :
    ((dictAppend m k v).map Prod.fst).Nodup := by
  rw [dictAppend_keys]
  by_cases hany : m.any (fun e => e.1 = k) = true
  · rw [if_pos hany]
    exact hm
  · rw [if_neg hany]
    have hknot : k ∉ m.map Prod.fst := by
      intro hmem
      apply hany
      rw [List.any_eq_true]
      obtain ⟨e, he, hek⟩ := List.mem_map.mp hmem
      exact ⟨e, he, by simp [hek]⟩
    simp [List.nodup_append, hm, hknot]

theorem insertAll_keys_nodup (prs : List (String × String)) :
    ∀ m, (m.map Prod.fst).Nodup → ((insertAll m prs).map Prod.fst).Nodup := by
  induction prs with
  | nil => intro m hm; exact hm
  | cons pr prs ih =>
    intro m hm
    exact ih (dictAppend m pr.1 pr.2) (keys_nodup_dictAppend m pr.1 pr.2 hm)

theorem insertAll_lookup_getD (prs : List (String × String)) :
    ∀ m k, (m.map Prod.fst).Nodup →
      ((insertAll m prs).lookup k).getD []
        = (m.lookup k).getD [] ++ ((prs.filter (fun pr => pr.1 = k)).map Prod.snd) := by
  induction prs with
  | nil => intro m k hm; simp [insertAll]
  | cons pr prs ih =>
    intro m k hm
    obtain ⟨k1, v⟩ := pr
    have hstep : insertAll m ((k1, v) :: prs) = insertAll (dictAppend m k1 v) prs := rfl
    rw [hstep]
    rw [ih (dictAppend m k1 v) k (keys_nodup_dictAppend m k1 v hm)]
    by_cases hek : k1 = k
    · subst hek
      rw [lookup_dictAppend_self m k1 v hm]
      simp
    · rw [lookup_dictAppend_ne m k1 v k (fun h => hek h.symm)]
      have hfilter : ((k1, v) :: prs).filter (fun pr => pr.1 = k)
          = prs.filter (fun pr => pr.1 = k) := by
        simp [List.filter_cons, hek]
      rw [hfilter]

theorem insertAll_lookup_isSome (prs : List (String × String)) :
    ∀ m k, (m.map Prod.fst).Nodup →
      ((insertAll m prs).lookup k).isSome
        = ((m.lookup k).isSome || prs.any (fun pr => pr.1 = k)) := by
  induction prs with
  | nil => intro m k hm; simp [insertAll]
  | cons pr prs ih =>
    intro m k hm
    obtain ⟨k1, v⟩ := pr
    have hstep : insertAll m ((k1, v) :: prs) = insertAll (dictAppend m k1 v) prs := rfl
    rw [hstep]
    rw [ih (dictAppend m k1 v) k (keys_nodup_dictAppend m k1 v hm)]
    by_cases hek : k1 = k
    · subst hek
      rw [lookup_dictAppend_self m k1 v hm]
      simp
    · rw [lookup_dictAppend_ne m k1 v k (fun h => hek h.symm)]
      simp [List.any_cons, hek]

theorem foldl_flatMap {α β σ : Type} (l : List α) (g : α → List β) (f : σ → β → σ) :
    ∀ init, (l.flatMap g).foldl f init = l.foldl (fun s a => (g a).foldl f s) init := by
  induction l with
  | nil => intro init; rfl
  | cons x xs ih =>
    intro init
    rw [show (x :: xs).flatMap g = g x ++ xs.flatMap g from rfl, List.foldl_append]
    exact ih _

theorem material_refs_eq_insertAll (p : ComplianceProject) :
    material_refs p = insertAll [] (ref_pairs p) := by
  unfold material_refs ref_pairs insertAll
  rw [List.foldl_append]
  simp only [List.foldl_map, foldl_flatMap]

theorem ref_pairs_filter (p : ComplianceProject) (k : String) :
    ((ref_pairs p).filter (fun pr => pr.1 = k)).map Prod.snd = refs_of p k := by
  unfold ref_pairs refs_of bim_refs invoice_refs
  rw [List.filter_append, List.map_append]
  congr 1
  · rw [List.filter_map, List.map_map]
    rfl
  · rw [List.filter_map, List.map_map]
    rfl

theorem lookup_eq_some_mem {α : Type} (m : List (String × α)) (k : String) (v : α)
    (h : m.lookup k = some v) : (k, v) ∈ m := by
  induction m with
  | nil => cases h
  | cons e m ih =>
    obtain ⟨k1, v1⟩ := e
    simp only [List.lookup] at h
    cases hbe : (k == k1) with
    | true =>
      simp only [hbe] at h
      have hk : k = k1 := eq_of_beq hbe
      injection h with hv
      rw [hk, hv]
      exact List.mem_cons_self _ _
    | false =>
      simp only [hbe] at h
      exact List.mem_cons_of_mem _ (ih h)

theorem mem_lookup_eq_some {α : Type} (m : List (String × α)) (k : String) (v : α)
    (hm : (m.map Prod.fst).Nodup) (h : (k, v) ∈ m) : m.lookup k = some v := by
  induction m with
  | nil => cases h
  | cons e m ih =>
    obtain ⟨k1, v1⟩ := e
    rcases List.mem_cons.mp h with heq | hmem
    · injection heq with h1 h2
      subst h1
      subst h2
      simp [List.lookup]
    · have hne : k ≠ k1 := by
        intro hkk
        subst hkk
        have hmem1 : (k, v).1 ∈ m.map Prod.fst := List.mem_map_of_mem Prod.fst hmem
        exact (List.nodup_cons.mp hm).1 hmem1
      have hb : (k == k1) = false := beq_eq_false_iff_ne.mpr hne
      simp only [List.lookup, hb]
      exact ih (List.nodup_cons.mp hm).2 hmem

theorem filter_key_length_le_one {α : Type} (m : List (String × α)) (k : String)
    (hm : (m.map Prod.fst).Nodup) :
    (m.filter (fun e => e.1 = k)).length ≤ 1 := by
  induction m with
  | nil => simp
  | cons e m ih =>
    obtain ⟨k1, v1⟩ := e
    by_cases hek : k1 = k
    · subst hek
      have hnil : m.filter (fun e => e.1 = k1) = [] := by
        rw [List.filter_eq_nil_iff]
        intro e he
        have hne : e.1 ≠ k1 := by
          intro hcontra
          have hmem1 : e.1 ∈ m.map Prod.fst := List.mem_map_of_mem Prod.fst he
          rw [hcontra] at hmem1
          exact (List.nodup_cons.mp hm).1 hmem1
        simpa using hne
      simp [List.filter_cons, hnil]
    · simp only [List.filter_cons]
      have : (decide ((k1, v1).1 = k)) = false := by simpa using hek
      rw [this]
      simp only [Bool.false_eq_true, if_false]
      exact ih (List.nodup_cons.mp hm).2

theorem material_refs_keys_nodup (p : ComplianceProject) :
    ((material_refs p).map Prod.fst).Nodup := by
  rw [material_refs_eq_insertAll]
  exact insertAll_keys_nodup (ref_pairs p) [] (by simp)

theorem material_refs_lookup (p : ComplianceProject) (k : String) :
    (material_refs p).lookup k
      = if refs_of p k = [] then none else some (refs_of p k) := by
  rw [material_refs_eq_insertAll]
  have hnodup : (([] : List (String × List String)).map Prod.fst).Nodup := by simp
  have hg := insertAll_lookup_getD (ref_pairs p) [] k hnodup
  have hs := insertAll_lookup_isSome (ref_pairs p) [] k hnodup
  rw [ref_pairs_filter] at hg
  have hnil : (([] : List (String × List String)).lookup k) = none := rfl
  rw [hnil] at hg hs
  simp only [Option.getD_none, List.nil_append, Option.isSome_none, Bool.false_or] at hg hs
  by_cases hre : refs_of p k = []
  · rw [if_pos hre]
    have hanyf : (ref_pairs p).any (fun pr => pr.1 = k) = false := by
      rw [Bool.eq_false_iff]
      intro hany
      obtain ⟨pr, hpr, hprk⟩ := List.any_eq_true.mp hany
      have hmem : pr.2 ∈ refs_of p k := by
        rw [← ref_pairs_filter]
        exact List.mem_map_of_mem Prod.snd (List.mem_filter.mpr ⟨hpr, hprk⟩)
      rw [hre] at hmem
      cases hmem
    rw [hanyf] at hs
    exact Option.not_isSome_iff_eq_none.mp (by rw [hs]; simp)
  · rw [if_neg hre]
    have hany : (ref_pairs p).any (fun pr => pr.1 = k) = true := by
      have hFne : (ref_pairs p).filter (fun pr => pr.1 = k) ≠ [] := by
        intro hF
        apply hre
        rw [← ref_pairs_filter, hF]
        rfl
      obtain ⟨pr, hpr⟩ := List.exists_mem_of_ne_nil _ hFne
      rcases List.mem_filter.mp hpr with ⟨hmem, hk⟩
      exact List.any_eq_true.mpr ⟨pr, hmem, hk⟩
    rw [hany] at hs
    obtain ⟨v, hv⟩ := Option.isSome_iff_exists.mp hs
    rw [hv] at hg ⊢
    simp only [Option.getD_some] at hg
    rw [hg]

theorem mem_material_refs (p : ComplianceProject) (k : String) (vs : List String) :
    (k, vs) ∈ material_refs p ↔ (vs = refs_of p k ∧ refs_of p k ≠ []) := by
  constructor
  · intro h
    have hl := mem_lookup_eq_some _ k vs (material_refs_keys_nodup p) h
    rw [material_refs_lookup] at hl
    by_cases hre : refs_of p k = []
    · rw [if_pos hre] at hl
      cases hl
    · rw [if_neg hre] at hl
      injection hl with hv
      exact ⟨hv.symm, hre⟩
  · rintro ⟨rfl, hne⟩
    apply lookup_eq_some_mem
    rw [material_refs_lookup, if_neg hne]

/-- C3 amended: the double-counting check emits one CRITICAL failed
finding per normalized material name carrying more than one reference in
total across building-model elements and invoice line items — repetition
within a single source also counts — naming exactly the references of
that name, and exactly one passing INFO finding when no name has more
than one reference. -/
theorem check_double_counting_amended (check_date : Int) (p : ComplianceProject)
    (rule : RuleDescr) :
    ((∀ k, (refs_of p k).length ≤ 1) →
      check_double_counting check_date p rule = Except.ok [no_duplicates_finding p rule]
      ∧ (no_duplicates_finding p rule).passed = true
      ∧ (no_duplicates_finding p rule).severity = Severity.info)
    ∧ (∀ k, 1 < (refs_of p k).length →
      ∃ fs, check_double_counting check_date p rule = Except.ok fs
        ∧ duplicate_group_finding p rule k (refs_of p k) ∈ fs
        ∧ (fs.filter (fun f => f.material = some k)).length = 1)
    ∧ (∀ fs f, check_double_counting check_date p rule = Except.ok fs → f ∈ fs →
      f.passed = false →
      ∃ k, f = duplicate_group_finding p rule k (refs_of p k)
        ∧ 1 < (refs_of p k).length) := by
  have hkeysnodup := material_refs_keys_nodup p
  refine ⟨?_, ?_, ?_⟩
  · intro hle
    have hdups : (material_refs p).filter (fun kv => 1 < kv.2.length) = [] := by
      rw [List.filter_eq_nil_iff]
      rintro ⟨k1, vs⟩ hkv
      obtain ⟨hvs, hne⟩ := (mem_material_refs p k1 vs).mp hkv
      subst hvs
      simpa using hle k1
    refine ⟨?_, rfl, rfl⟩
    unfold check_double_counting
    simp only [hdups]
    rfl
  · intro k hgt
    have hne : refs_of p k ≠ [] := by
      intro h0
      rw [h0] at hgt
      simp at hgt
    have hmem : (k, refs_of p k) ∈ material_refs p := (mem_material_refs p k _).mpr ⟨rfl, hne⟩
    have hmemf : (k, refs_of p k) ∈ (material_refs p).filter (fun kv => 1 < kv.2.length) :=
      List.mem_filter.mpr ⟨hmem, by simpa using hgt⟩
    have hisEmpty : ((material_refs p).filter (fun kv => 1 < kv.2.length)).isEmpty = false := by
      cases hd : (material_refs p).filter (fun kv => 1 < kv.2.length) with
      | nil => rw [hd] at hmemf; cases hmemf
      | cons a l => rfl
    refine ⟨((material_refs p).filter (fun kv => 1 < kv.2.length)).map
        (fun kv => duplicate_group_finding p rule kv.1 kv.2), ?_, ?_, ?_⟩
    · unfold check_double_counting
      simp only [hisEmpty, Bool.false_eq_true, if_false]
    · exact List.mem_map_of_mem _ hmemf
    · rw [List.filter_map]
      rw [List.length_map]
      have hcongr : ((material_refs p).filter (fun kv => 1 < kv.2.length)).filter
            ((fun f => f.material = some k) ∘ (fun kv => duplicate_group_finding p rule kv.1 kv.2))
          = ((material_refs p).filter (fun kv => 1 < kv.2.length)).filter
            (fun kv => kv.1 = k) := by
        apply List.filter_congr
        intro kv hkv
        show decide (some kv.1 = some k) = decide (kv.1 = k)
        exact decide_eq_decide.mpr Option.some_inj
      rw [hcongr]
      have hnodup2 : ((((material_refs p).filter (fun kv => 1 < kv.2.length)).map Prod.fst)).Nodup := by
        exact List.Nodup.sublist (List.Sublist.map Prod.fst (List.filter_sublist _)) hkeysnodup
      have hle1 := filter_key_length_le_one _ k hnodup2
      have hge1 : 0 < (((material_refs p).filter (fun kv => 1 < kv.2.length)).filter
          (fun kv => kv.1 = k)).length := by
        rw [List.length_pos]
        intro hnil2
        have : (k, refs_of p k) ∈ (((material_refs p).filter (fun kv => 1 < kv.2.length)).filter
            (fun kv => kv.1 = k)) := List.mem_filter.mpr ⟨hmemf, by simp⟩
        rw [hnil2] at this
        cases this
      omega
  · intro fs f hfs hf hp
    unfold check_double_counting at hfs
    by_cases hd : ((material_refs p).filter (fun kv => 1 < kv.2.length)).isEmpty = true
    · simp only [hd, if_true] at hfs
      injection hfs with hfs2
      rw [← hfs2] at hf
      have hfe : f = no_duplicates_finding p rule := by simpa using hf
      rw [hfe] at hp
      cases hp
    · have hd2 : ((material_refs p).filter (fun kv => 1 < kv.2.length)).isEmpty = false := by
        cases hb : ((material_refs p).filter (fun kv => 1 < kv.2.length)).isEmpty
        · rfl
        · exact absurd hb hd
      simp only [hd2, Bool.false_eq_true, if_false] at hfs
      injection hfs with hfs2
      rw [← hfs2] at hf
      obtain ⟨kv, hkvmem, hkvf⟩ := List.mem_map.mp hf
      obtain ⟨hkvrefs, hgt⟩ := List.mem_filter.mp hkvmem
      obtain ⟨k1, vs⟩ := kv
      obtain ⟨hvs, hne⟩ := (mem_material_refs p k1 vs).mp hkvrefs
      subst hvs
      refine ⟨k1, hkvf.symm, by simpa using hgt⟩

/-- C3 counterexample: a project whose only name repetition is two
building-model elements with the same material and no invoices at all —
no cross-source duplication exists, yet the check emits a CRITICAL
failed duplicate finding and no passing INFO finding. -/
theorem check_double_counting_counterexample :
    wProj3.invoices = []
    ∧ (check_double_counting 0 wProj3 wRule3).toOption.map
        (fun fs => fs.map (fun f => (f.passed, f.severity, f.material)))
      = some [(false, Severity.critical, some "concrete 32mpa")] := by
  refine ⟨rfl, by decide⟩

-- ===========================================================================
-- C7: arithmetic precision of the threshold computations
-- ===========================================================================

/-- C7 counterexample: for the matched element/line-item pair of
`wProj7` (equal units, quantities 1.10000000000000000001 and 1), the
exact decimal variance is 10.000000000000000001 % — strictly above the
±10 % tolerance — but the binary floating-point computation of the code yields
exactly 10.0, so the element passes the traceability check: the variance
comparison is not carried out in exact decimal arithmetic, and its
threshold decision flips at this input. -/
theorem quantity_variance_float_counterexample :
    quantity_variance_pct (wElem7.quantity - wLi7.quantity) wLi7.quantity = 10
    ∧ 10 < 100 * |wElem7.quantity - wLi7.quantity| / wLi7.quantity
    ∧ check_material_traceability 0 wProj7 wRule7
        = Except.ok [traceability_finding wRule7 wElem7 []]
    ∧ (traceability_finding wRule7 wElem7 []).passed = true := by
  refine ⟨by decide, by decide, ?_, rfl⟩
  show mapExcept (check_element_traceability (invoice_products wProj7) wRule7)
      (wProj7.bim_models.flatMap (fun bm => bm.elements)) = _
  have h1 : check_element_traceability (invoice_products wProj7) wRule7 wElem7
      = Except.ok (traceability_finding wRule7 wElem7 []) := by decide
  simp [mapExcept, h1]

/-- C7 amended: the diversion-rate aggregate is computed in exact decimal
arithmetic — for every project with positive total waste mass the
verdict of the diversion finding is exactly `70 ≤ diverted/total*100` over the
rationals — but the quantity-variance comparison converts its Decimal
operands to binary floating point, and its decision deviates from exact
decimal arithmetic at boundary inputs such as a variance of
10.000000000000000001 %. -/
theorem arithmetic_precision_amended (check_date : Int) (p : ComplianceProject)
    (rule : RuleDescr) (h : 0 < total_waste_kg p) :
    (∃ fs, check_waste_circularity check_date p rule = Except.ok fs
      ∧ diversion_rate_finding p rule ∈ fs
      ∧ (diversion_rate_finding p rule).passed
          = decide ((70 : ℚ) ≤ diverted_waste_kg p / total_waste_kg p * 100))
    ∧ quantity_variance_pct ((10000000000000000001 : ℚ) / 100000000000000000000) 1 = 10
    ∧ 10 < 100 * |(10000000000000000001 : ℚ) / 100000000000000000000| / 1 := by
  refine ⟨?_, by decide, by decide⟩
  refine ⟨_, rfl, ?_, rfl⟩
  apply List.mem_append_right
  rw [if_pos h]
  simp

/-- C7 witness: the amended statement applied to a project with one
recycled 50-tonne waste stream (diversion rate 100 %, passing). -/
theorem arithmetic_precision_witness :
    ∃ fs, check_waste_circularity 0 wProj7b wRule7b = Except.ok fs
      ∧ diversion_rate_finding wProj7b wRule7b ∈ fs
      ∧ (diversion_rate_finding wProj7b wRule7b).passed = true := by
  obtain ⟨⟨fs, h1, h2, h3⟩, _, _⟩ :=
    arithmetic_precision_amended 0 wProj7b wRule7b (by decide)
  refine ⟨fs, h1, h2, ?_⟩
  rw [h3]
  decide

-- ===========================================================================
-- C8: generic fallback for unregistered rule identifiers
-- ===========================================================================

/-- C8 amended: an enabled rule descriptor with no registered handler is
neither skipped nor fatal — the generic fallback contributes exactly one
WARNING, failed finding stating the rule is not implemented, prepended to
whatever the remaining rules produce.  (Enabled rules *with* handlers may
still contribute zero findings; see the counterexample.) -/
theorem generic_fallback_contributes (check_date : Int) (p : ComplianceProject)
    (rule : RuleDescr) (rest : List RuleDescr)
    (henabled : rule.enabled = true) (hnone : handlerFor rule.rule_id = none) :
    ∃ f, generic_check check_date p rule = Except.ok [f]
      ∧ f.severity = Severity.warning ∧ f.passed = false
      ∧ f.description = "Rule \x27" ++ rule.rule_id ++ "\x27 not yet implemented"
      ∧ run_rules check_date (rule :: rest) p
          = (run_rules check_date rest p).map (fun x => (f :: x.1, x.2)) := by
  refine ⟨_, rfl, rfl, rfl, rfl, ?_⟩
  show (if rule.enabled then _ else _) = _
  rw [if_pos henabled]
  rw [hnone]
  cases hrec : run_rules check_date rest p with
  | error e => rfl
  | ok x => rfl

/-- C8 counterexample: `epd_validity` is enabled and has a registered
handler, yet on a project with no EPDs the whole evaluation succeeds with
an empty finding list — an enabled catalogue rule contributing zero
findings, contradicting the universal coverage clause of the claim. -/
theorem enabled_rule_zero_findings_counterexample :
    wRule8.enabled = true
    ∧ (handlerFor wRule8.rule_id).isSome = true
    ∧ ∃ rep, evaluate_project 0 "1.0.0" [wRule8] wProj8 = Except.ok (rep, wProj8)
        ∧ rep.findings = [] := by
  refine ⟨rfl, rfl, ⟨_, rfl, rfl⟩⟩

/-- C8 witness: the amended statement applied to the unregistered rule
identifier `future_rule` on a concrete project with an empty rule tail. -/
theorem generic_fallback_witness :
    ∃ f, generic_check 0 wProj8 wRule8gen = Except.ok [f]
      ∧ f.severity = Severity.warning ∧ f.passed = false
      ∧ f.description = "Rule \x27future_rule\x27 not yet implemented"
      ∧ run_rules 0 [wRule8gen] wProj8
          = (run_rules 0 ([] : List RuleDescr) wProj8).map (fun x => (f :: x.1, x.2)) := by
  obtain ⟨f, h1, h2, h3, h4, h5⟩ :=
    generic_fallback_contributes 0 wProj8 wRule8gen [] rfl rfl
  exact ⟨f, h1, h2, h3, h4, h5⟩

-- ===========================================================================
-- C9: evaluation does not mutate the project record
-- ===========================================================================

theorem run_rules_preserves_project (check_date : Int) :
    ∀ (rules : List RuleDescr) (p : ComplianceProject) (fs : List ComplianceFinding)
      (p2 : ComplianceProject),
      run_rules check_date rules p = Except.ok (fs, p2) → p2 = p := by
  intro rules
  induction rules with
  | nil =>
    intro p fs p2 h
    injection h with h2
    exact (congrArg Prod.snd h2).symm
  | cons rule rest ih =>
    intro p fs p2 h
    by_cases he : rule.enabled
    · rw [show run_rules check_date (rule :: rest) p
          = (if rule.enabled then _ else run_rules check_date rest p) from rfl,
        if_pos he] at h
      cases hh : (match handlerFor rule.rule_id with
                  | some hdl => hdl check_date p rule
                  | none => generic_check check_date p rule) with
      | error e =>
        rw [hh] at h
        cases h
      | ok fs1 =>
        rw [hh] at h
        cases hrec : run_rules check_date rest p with
        | error e =>
          rw [hrec] at h
          cases h
        | ok x =>
          rw [hrec] at h
          injection h with h2
          have hsnd : x.2 = p2 := congrArg Prod.snd h2
          obtain ⟨fs2, p3⟩ := x
          have := ih p fs2 p3 hrec
          rw [← hsnd]
          exact this
    · rw [show run_rules check_date (rule :: rest) p
          = (if rule.enabled then _ else run_rules check_date rest p) from rfl,
        if_neg he] at h
      exact ih p fs p2 h

/-- C9: whenever evaluation completes, the project record it hands back —
threaded through every rule handler — is exactly the input project
record: no check mutates the project or any nested entity. -/
theorem evaluate_project_preserves_project (check_date : Int) (version : String)
    (rules : List RuleDescr) (p : ComplianceProject) (rep : ComplianceReport)
    (p2 : ComplianceProject)
    (h : evaluate_project check_date version rules p = Except.ok (rep, p2)) :
    p2 = p := by
  unfold evaluate_project at h
  cases hrun : run_rules check_date rules p with
  | error e =>
    rw [hrun] at h
    cases h
  | ok x =>
    rw [hrun] at h
    injection h with h2
    have hsnd : x.2 = p2 := congrArg Prod.snd h2
    obtain ⟨fs, p3⟩ := x
    have := run_rules_preserves_project check_date rules p fs p3 hrun
    rw [← hsnd]
    exact this

/-- C9 witness: a concrete evaluation returning the untouched project. -/
theorem evaluate_project_preserves_witness :
    ∃ rep, evaluate_project 0 "1.0.0" [wRule8gen] wProj9 = Except.ok (rep, wProj9) := by
  obtain ⟨rep, p2, h⟩ : ∃ rep p2,
      evaluate_project 0 "1.0.0" [wRule8gen] wProj9 = Except.ok (rep, p2) := ⟨_, _, rfl⟩
  have hp := evaluate_project_preserves_project 0 "1.0.0" [wRule8gen] wProj9 rep p2 h
  rw [hp] at h
  exact ⟨rep, h⟩

-- ===========================================================================
-- C10: division by zero in the quantity-variance computation
-- ===========================================================================

theorem mapExcept_error_mem {α β : Type} (f : α → Except PyError β) (l : List α)
    (e : PyError) (h : mapExcept f l = Except.error e) : ∃ x ∈ l, f x = Except.error e := by
  induction l with
  | nil => cases h
  | cons x xs ih =>
    unfold mapExcept at h
    cases hfx : f x with
    | error e2 =>
      rw [hfx] at h
      injection h with he
      subst he
      exact ⟨x, by simp, hfx⟩
    | ok y =>
      rw [hfx] at h
      cases hrec : mapExcept f xs with
      | error e2 =>
        rw [hrec] at h
        injection h with he
        subst he
        obtain ⟨x2, hx2, hfx2⟩ := ih hrec
        exact ⟨x2, by simp [hx2], hfx2⟩
      | ok ys =>
        rw [hrec] at h
        cases h

theorem mapExcept_ok_forall {α β : Type} (f : α → Except PyError β) (l : List α)
    (ys : List β) (h : mapExcept f l = Except.ok ys) : ∀ x ∈ l, ∃ y, f x = Except.ok y := by
  induction l generalizing ys with
  | nil => intro x hx; cases hx
  | cons x xs ih =>
    unfold mapExcept at h
    cases hfx : f x with
    | error e2 =>
      rw [hfx] at h
      cases h
    | ok y =>
      rw [hfx] at h
      cases hrec : mapExcept f xs with
      | error e2 =>
        rw [hrec] at h
        cases h
      | ok ys2 =>
        intro x2 hx2
        rcases List.mem_cons.mp hx2 with heq | hmem
        · exact ⟨y, heq ▸ hfx⟩
        · exact ih ys2 hrec x2 hmem

theorem check_element_error_iff (m : List (String × (InvoiceLineItem × ERPInvoice)))
    (rule : RuleDescr) (element : IFCElement) :
    check_element_traceability m rule element = Except.error PyError.zeroDivisionError
    ↔ ∃ key li invoice,
        resolved_material_key m element = some key
        ∧ m.lookup key = some (li, invoice)
        ∧ li.unit = element.unit ∧ li.quantity = 0 := by
  unfold check_element_traceability
  cases hres : resolved_material_key m element with
  | none =>
    constructor
    · intro h
      simp at h
    · rintro ⟨key, li, invoice, hkey, -⟩
      cases hkey
  | some key =>
    dsimp only
    generalize hlook : List.lookup key m = res
    cases res with
    | none =>
      constructor
      · intro h
        simp at h
      · rintro ⟨key2, li2, inv2, hkey2, hlook2, -, -⟩
        injection hkey2 with hk
        subst hk
        rw [hlook] at hlook2
        cases hlook2
    | some pr =>
      obtain ⟨li, invoice⟩ := pr
      dsimp only
      by_cases hunit : li.unit = element.unit
      · rw [if_pos hunit]
        by_cases hq : li.quantity = 0
        · rw [if_pos hq]
          constructor
          · intro _
            exact ⟨key, li, invoice, rfl, hlook, hunit, hq⟩
          · intro _
            rfl
        · rw [if_neg hq]
          constructor
          · intro h
            simp at h
          · rintro ⟨key2, li2, inv2, hkey2, hlook2, -, hq2⟩
            injection hkey2 with hk
            subst hk
            rw [hlook] at hlook2
            injection hlook2 with hpr
            injection hpr with hli hinv
            rw [← hli] at hq2
            exact absurd hq2 hq
      · rw [if_neg hunit]
        constructor
        · intro h
          simp at h
        · rintro ⟨key2, li2, inv2, hkey2, hlook2, hu2, -⟩
          injection hkey2 with hk
          subst hk
          rw [hlook] at hlook2
          injection hlook2 with hpr
          injection hpr with hli hinv
          rw [← hli] at hu2
          exact absurd hu2 hunit

theorem check_element_error_unique (m : List (String × (InvoiceLineItem × ERPInvoice)))
    (rule : RuleDescr) (element : IFCElement) (e : PyError)
    (h : check_element_traceability m rule element = Except.error e) :
    e = PyError.zeroDivisionError := by
  unfold check_element_traceability at h
  cases hres : resolved_material_key m element with
  | none =>
    rw [hres] at h
    simp at h
  | some key =>
    rw [hres] at h
    dsimp only at h
    cases hlook : m.lookup key with
    | none =>
      rw [hlook] at h
      simp at h
    | some pr =>
      obtain ⟨li, invoice⟩ := pr
      rw [hlook] at h
      dsimp only at h
      by_cases hunit : li.unit = element.unit
      · rw [if_pos hunit] at h
        by_cases hq : li.quantity = 0
        · rw [if_pos hq] at h
          injection h with he
          exact he.symm
        · rw [if_neg hq] at h
          simp at h
      · rw [if_neg hunit] at h
        simp at h

theorem run_rules_not_ok (check_date : Int) :
    ∀ (rules : List RuleDescr) (p : ComplianceProject) (rule2 : RuleDescr) (e : PyError),
      rule2 ∈ rules → rule2.enabled = true →
      (match handlerFor rule2.rule_id with
       | some h => h check_date p rule2
       | none => generic_check check_date p rule2) = Except.error e →
      (run_rules check_date rules p).isOk = false := by
  intro rules
  induction rules with
  | nil =>
    intro p rule2 e hmem
    cases hmem
  | cons r rest ih =>
    intro p rule2 e hmem henabled herr
    rcases List.mem_cons.mp hmem with heq | hmem2
    · subst heq
      rw [show run_rules check_date (rule2 :: rest) p
          = (if rule2.enabled then _ else run_rules check_date rest p) from rfl,
        if_pos henabled, herr]
      rfl
    · by_cases hre : r.enabled
      · rw [show run_rules check_date (r :: rest) p
            = (if r.enabled then _ else run_rules check_date rest p) from rfl,
          if_pos hre]
        cases hh : (match handlerFor r.rule_id with
                    | some hdl => hdl check_date p r
                    | none => generic_check check_date p r) with
        | error e2 => rfl
        | ok fs1 =>
          cases hrec : run_rules check_date rest p with
          | error e2 => rfl
          | ok x =>
            have := ih p rule2 e hmem2 henabled herr
            rw [hrec] at this
            cases this
      · rw [show run_rules check_date (r :: rest) p
            = (if r.enabled then _ else run_rules check_date rest p) from rfl,
          if_neg hre]
        exact ih p rule2 e hmem2 henabled herr

/-- C10: the material-traceability check raises `ZeroDivisionError`
exactly when some building-model element resolves (exactly or fuzzily) to
an invoice line item with the same unit and zero quantity; absent such a
pair the check returns findings normally; and whenever the check raises,
an evaluation whose catalogue contains the enabled `material_traceability`
rule produces no report. -/
theorem check_material_traceability_zero_division (check_date : Int)
    (p : ComplianceProject) (rule : RuleDescr) :
    (check_material_traceability check_date p rule = Except.error PyError.zeroDivisionError
      ↔ ∃ element ∈ p.bim_models.flatMap (fun bm => bm.elements),
          ∃ key li invoice,
            resolved_material_key (invoice_products p) element = some key
            ∧ (invoice_products p).lookup key = some (li, invoice)
            ∧ li.unit = element.unit ∧ li.quantity = 0)
    ∧ ((¬ ∃ element ∈ p.bim_models.flatMap (fun bm => bm.elements),
          ∃ key li invoice,
            resolved_material_key (invoice_products p) element = some key
            ∧ (invoice_products p).lookup key = some (li, invoice)
            ∧ li.unit = element.unit ∧ li.quantity = 0) →
        ∃ fs, check_material_traceability check_date p rule = Except.ok fs)
    ∧ (∀ (rules : List RuleDescr) (version : String) (rule2 : RuleDescr),
        rule2 ∈ rules → rule2.enabled = true → rule2.rule_id = "material_traceability" →
        check_material_traceability check_date p rule2 = Except.error PyError.zeroDivisionError →
        (evaluate_project check_date version rules p).isOk = false) := by
  have hiff : check_material_traceability check_date p rule
        = Except.error PyError.zeroDivisionError
      ↔ ∃ element ∈ p.bim_models.flatMap (fun bm => bm.elements),
          ∃ key li invoice,
            resolved_material_key (invoice_products p) element = some key
            ∧ (invoice_products p).lookup key = some (li, invoice)
            ∧ li.unit = element.unit ∧ li.quantity = 0 := by
    constructor
    · intro h
      obtain ⟨el, hmem, herr⟩ := mapExcept_error_mem _ _ _ h
      exact ⟨el, hmem, (check_element_error_iff _ rule el).mp herr⟩
    · rintro ⟨el, hmem, hcond⟩
      have herr : check_element_traceability (invoice_products p) rule el
          = Except.error PyError.zeroDivisionError :=
        (check_element_error_iff _ rule el).mpr hcond
      cases hmap : check_material_traceability check_date p rule with
      | ok ys =>
        obtain ⟨y, hy⟩ := mapExcept_ok_forall _ _ _ hmap el hmem
        rw [herr] at hy
        cases hy
      | error e =>
        obtain ⟨x, hx, hfx⟩ := mapExcept_error_mem _ _ _ hmap
        rw [check_element_error_unique _ rule x e hfx]
  refine ⟨hiff, ?_, ?_⟩
  · intro hnot
    cases hmap : check_material_traceability check_date p rule with
    | ok ys => exact ⟨ys, rfl⟩
    | error e =>
      obtain ⟨x, hx, hfx⟩ := mapExcept_error_mem _ _ _ hmap
      have he := check_element_error_unique _ rule x e hfx
      subst he
      exact absurd (hiff.mp hmap) hnot
  · intro rules version rule2 hmem henabled hid herr
    have hdisp : (match handlerFor rule2.rule_id with
        | some h => h check_date p rule2
        | none => generic_check check_date p rule2)
        = Except.error PyError.zeroDivisionError := by
      rw [hid]
      exact herr
    have hrun := run_rules_not_ok check_date rules p rule2 PyError.zeroDivisionError
      hmem henabled hdisp
    unfold evaluate_project
    cases hr : run_rules check_date rules p with
    | error e => rfl
    | ok x =>
      rw [hr] at hrun
      cases hrun

/-- C10 witness: on a concrete project whose element "Glulam Beam"
resolves exactly to a same-unit line item with quantity zero, the check
raises `ZeroDivisionError` and an evaluation containing the rule yields
no report. -/
theorem check_material_traceability_zero_division_witness :
    check_material_traceability 0 wProj10 wRule10 = Except.error PyError.zeroDivisionError
    ∧ (evaluate_project 0 "1.0.0" [wRule10] wProj10).isOk = false := by
  obtain ⟨hiff, -, hprop⟩ := check_material_traceability_zero_division 0 wProj10 wRule10
  have herr := hiff.mpr ⟨wElem10, by decide, "glulam beam", wLi10, wInv10,
    by decide, by decide, rfl, rfl⟩
  exact ⟨herr, hprop [wRule10] "1.0.0" wRule10 (by simp) rfl rfl herr⟩

/-- C3 witness: the amended statement applied to the two-element project:
the name "concrete 32mpa" has two references, and the check emits exactly
one duplicate finding for it. -/
theorem check_double_counting_amended_witness :
    ∃ fs, check_double_counting 0 wProj3 wRule3 = Except.ok fs
      ∧ duplicate_group_finding wProj3 wRule3 "concrete 32mpa"
          (refs_of wProj3 "concrete 32mpa") ∈ fs
      ∧ (fs.filter (fun f => f.material = some "concrete 32mpa")).length = 1 :=
  (check_double_counting_amended 0 wProj3 wRule3).2.1 "concrete 32mpa" (by decide)
